import Mathlib

/-!
NextGen Rotaract: the authentication and contact handlers of the backend and
the form handlers of the frontend.

A shallow embedding of `backend/controllers/authController.js`,
`backend/services/auth/authService.js`, `backend/services/auth/firebase.js`,
`backend/routes/geminiRoutes.js`, `backend/controllers/contactController.js`,
`backend/server.js`, `public/js/forms.js` and `public/js/dynamicContent.js`.

* JavaScript values are the type `JsVal`; `!x` is `JsVal.truthy x = false`.
* `async` functions that may reject return `Except JsError _`; a `try/catch`
  is a `match` on that result.
* The Firebase platform (accounts and the `users` collection) is an explicit
  state, `IdentityStore`, passed through the functions that write to it.
* Time is a natural number of seconds, passed explicitly.
-/

namespace Rotaract

/-! ## JavaScript values -/

/-- A JavaScript value as it occurs in a parsed request body or a stored
document. Arrays and objects are kept as opaque references: the handlers only
test them for truthiness and pass them on. Numbers are integers (`0` is the
only falsy one; fractions and `NaN` do not occur). -/
inductive JsVal
  | undefined
  | null
  | bool (b : Bool)
  | num (n : Int)
  | str (s : String)
  | object (ref : Nat)
  deriving DecidableEq, Repr, Inhabited

namespace JsVal

/-- JavaScript truthiness: `!v` is `true` exactly when `truthy v = false`. -/
def truthy : JsVal → Bool
  | undefined => false
  | null => false
  | bool b => b
  | num n => n != 0
  | str s => s != ""
  | object _ => true

/-- The test `typeof v === 'string'`. -/
def isString : JsVal → Bool
  | str _ => true
  | _ => false

/-- A field that is absent from the body or holds a string. -/
def isStringOrAbsent : JsVal → Bool
  | undefined => true
  | str _ => true
  | _ => false

end JsVal

/-- A plain JavaScript object: its own enumerable properties in order. -/
abbrev JsObject := List (String × JsVal)

/-- Property read `o.k`: `undefined` when the property is absent. -/
def JsObject.get (o : JsObject) (k : String) : JsVal :=
  match o.lookup k with
  | some v => v
  | none => JsVal.undefined

/-- Does the text start with the pattern (both as character lists)? -/
def startsWithChars : List Char → List Char → Bool
  | [], _ => true
  | _ :: _, [] => false
  | p :: ps, c :: cs => p == c && startsWithChars ps cs

/-- Does the pattern occur somewhere in the text (both as character lists)? -/
def includesChars (pat : List Char) : List Char → Bool
  | [] => pat.isEmpty
  | c :: cs => startsWithChars pat (c :: cs) || includesChars pat cs

/-- The method `String.prototype.includes`: `s.includes(pat)`. -/
def jsIncludes (s pat : String) : Bool :=
  includesChars pat.data s.data

/-- A thrown JavaScript `Error`; the handlers read only its `message`. -/
structure JsError where
  message : String
  deriving DecidableEq, Repr

/-! ## The Identity Store (Firebase Auth accounts and the `users` collection) -/

/-- Modelled from the spec: an account record of the Identity Store, as
`admin.auth().createUser` creates it (the Firebase Admin SDK is not part of
the repository). -/
structure Account where
  uid : String
  email : String
  password : String
  displayName : String
  deriving DecidableEq, Repr

/-- The record `admin.auth().createUser` and `getUserByEmail` resolve with. -/
structure UserRecord where
  uid : String
  deriving DecidableEq, Repr

/-- Modelled from the spec: the Identity Store, the external system of record
for accounts (keyed by a stable id, email unique and case-insensitive) together
with the `users` document collection. The Firebase Admin SDK is not part of the
repository; the text of the errors it raises is a parameter of the store.
`authOutage` and `firestoreOutage` hold the error every call rejects with while
the corresponding service cannot be reached. -/
structure IdentityStore where
  accounts : List Account
  users : List (String × JsObject)
  clock : Nat
  authOutage : Option JsError
  firestoreOutage : Option JsError
  emailInUse : JsError
  userNotFound : JsError
  invalidArgument : JsError
  deriving DecidableEq, Repr

/-- Key under which the store compares emails (case-insensitive). -/
def emailKey (email : String) : List Char :=
  email.data.map Char.toLower

/-- The account registered under an email, if any. -/
def IdentityStore.findByEmail (st : IdentityStore) (email : String) : Option Account :=
  st.accounts.find? (fun a => emailKey a.email == emailKey email)

/-- Modelled from the spec: a fresh stable id, one character longer than every
id already assigned. -/
def freshUid (accounts : List Account) : String :=
  String.mk (List.replicate ((accounts.map (fun a => a.uid.length)).foldr max 0 + 1) 'u')

/-- Modelled from the spec: `admin.auth().createUser({email, password, displayName})`.
Rejects while the service is unreachable, on a malformed (non-string) property,
and when the email is already in use; otherwise adds one account under a fresh
id and resolves with its record. -/
def createUser (st : IdentityStore) (email password displayName : JsVal) :
    Except JsError UserRecord × IdentityStore :=
  match st.authOutage with
  | some e => (.error e, st)
  | none =>
    match email, password, displayName with
    | .str em, .str pw, .str dn =>
      match st.findByEmail em with
      | some _ => (.error st.emailInUse, st)
      | none =>
        let uid := freshUid st.accounts
        (.ok ⟨uid⟩, { st with accounts := st.accounts ++ [⟨uid, em, pw, dn⟩] })
    | _, _, _ => (.error st.invalidArgument, st)

/-- Modelled from the spec: `admin.auth().getUserByEmail(email)`. -/
def getUserByEmail (st : IdentityStore) (email : JsVal) : Except JsError UserRecord :=
  match st.authOutage with
  | some e => .error e
  | none =>
    match email with
    | .str em =>
      match st.findByEmail em with
      | some a => .ok ⟨a.uid⟩
      | none => .error st.userNotFound
    | _ => .error st.invalidArgument

/-- Modelled from the spec: `admin.firestore().collection('users').doc(id).set(data)`;
replaces the document with that id. -/
def usersDocSet (st : IdentityStore) (docId : String) (data : JsObject) :
    Except JsError Unit × IdentityStore :=
  match st.firestoreOutage with
  | some e => (.error e, st)
  | none =>
    (.ok (), { st with users := (docId, data) :: st.users.filter (fun d => d.1 != docId) })

/-- What `doc(id).get()` resolves with: the `exists` flag and `data()`. -/
structure DocSnapshot where
  docExists : Bool
  data : JsObject
  deriving DecidableEq, Repr

/-- A Firestore handle reduced to the one read the handlers perform:
`collection(name).doc(id).get()`. -/
abbrev Db := String → String → Except JsError DocSnapshot

/-- The `db` object `firebase.js` exports: a placeholder whose `get` always
resolves with `{ exists: false, data: () => ({}) }`. -/
def db : Db :=
  fun _ _ => .ok ⟨false, []⟩

/-- Modelled from the spec: the Firestore handle of a working platform, reading
the `users` collection of the store. -/
def firestore (st : IdentityStore) : Db :=
  fun collectionName docId =>
    match st.firestoreOutage with
    | some e => .error e
    | none =>
      if collectionName == "users" then
        match st.users.lookup docId with
        | some data => .ok ⟨true, data⟩
        | none => .ok ⟨false, []⟩
      else .ok ⟨false, []⟩

/-! ## Session tokens (`jsonwebtoken`) -/

/-- The `alg` header of a token. -/
inductive JwtAlg
  | HS256
  | HS384
  | HS512
  | unsecured
  deriving DecidableEq, Repr

/-- The payload of a token: the claims `uid` and `role` and the registered
claims `iat` and `exp` (seconds). -/
structure Claims where
  uid : JsVal
  role : JsVal
  iat : Option Nat
  exp : Option Nat
  deriving DecidableEq, Repr

/-- A compact token, kept as its three decoded segments: the base64url/JSON
text of header and payload is not modelled, the signature segment is its text. -/
structure Jwt where
  alg : JwtAlg
  payload : Claims
  signature : String
  deriving DecidableEq, Repr

/-- The UTF-8 bytes of a string. -/
def utf8Bytes (s : String) : List UInt8 :=
  s.data.flatMap String.utf8EncodeChar

/-- The block size in bytes of the hash behind an HMAC algorithm. -/
def hmacBlockSize : JwtAlg → Nat
  | JwtAlg.HS256 => 64
  | JwtAlg.HS384 => 128
  | JwtAlg.HS512 => 128
  | JwtAlg.unsecured => 0

/-- The key HMAC works with: the UTF-8 bytes of the secret, padded with zero
bytes to the block size when they fit the block. (A longer secret is replaced
by its hash, which is not modelled: it is kept as it is.) -/
def hmacKey (alg : JwtAlg) (secret : String) : List UInt8 :=
  if (utf8Bytes secret).length ≤ hmacBlockSize alg then
    utf8Bytes secret ++ List.replicate (hmacBlockSize alg - (utf8Bytes secret).length) 0
  else utf8Bytes secret

/-- The keyed MAC of `jsonwebtoken`, a parameter: the signature text for an
algorithm, a secret and the signing input (header and payload). A MAC has a
fixed positive number of bytes, so its text is never empty, and it depends on
the secret only through the key HMAC prepares from it. -/
structure Hmac where
  mac : JwtAlg → String → Claims → String
  mac_ne : ∀ alg secret input, mac alg secret input ≠ ""
  mac_key : ∀ alg secret1 secret2 input,
    hmacKey alg secret1 = hmacKey alg secret2 → mac alg secret1 input = mac alg secret2 input

/-- An argument handed to `jwt.verify`: not a string, a string that is not
three well-formed segments, or a compact token. -/
inductive JwtArg
  | notString (v : JsVal)
  | malformed (s : String)
  | compact (t : Jwt)
  deriving DecidableEq, Repr

/-- The errors `jwt.verify` throws. -/
inductive JwtError
  | mustBeString
  | malformed
  | signatureRequired
  | invalidAlgorithm
  | invalidSignature
  | expired
  deriving DecidableEq, Repr

/-- The call `jwt.sign(payload, secret, { expiresIn })` with a string secret:
HS256, `iat` the current time and `exp = iat + expiresIn`. -/
def jwtSign (hmac : Hmac) (uid role : JsVal) (secret : String) (expiresIn now : Nat) : Jwt :=
  let payload : Claims := ⟨uid, role, some now, some (now + expiresIn)⟩
  ⟨JwtAlg.HS256, payload, hmac.mac JwtAlg.HS256 secret payload⟩

/-- The call `jwt.verify(token, secret)` with a string secret: the checks of
`jsonwebtoken` in their order; a token is expired once `now >= exp`. -/
def jwtVerify (hmac : Hmac) (token : JwtArg) (secret : String) (now : Nat) :
    Except JwtError Claims :=
  match token with
  | .notString _ => .error .mustBeString
  | .malformed _ => .error .malformed
  | .compact t =>
    if t.signature == "" then .error .signatureRequired
    else if t.alg == JwtAlg.unsecured then .error .invalidAlgorithm
    else if t.signature != hmac.mac t.alg secret t.payload then .error .invalidSignature
    else
      match t.payload.exp with
      | some e => if now ≥ e then .error .expired else .ok t.payload
      | none => .ok t.payload

/-! ## `authService.js` -/

/-- The loaded `authService` module: the secret read from `JWT_SECRET` at load
time and the MAC primitive of the token library. The module calls
`process.exit(1)` while loading when the secret is not set, so a loaded module
has a non-empty secret. -/
structure AuthService where
  hmac : Hmac
  jwtSecret : String
  secret_set : jwtSecret ≠ ""

/-- The value `registerUser` resolves with: `{ uid, role }`. -/
structure NewUser where
  uid : String
  role : JsVal
  deriving DecidableEq, Repr

/-- A call made to the platform, in the order the handlers make them. -/
inductive StoreCall
  | getUserByEmail (email : JsVal)
  | docGet (collectionName docId : String)
  | createUser (email password displayName : JsVal)
  | docSet (collectionName docId : String) (data : JsObject)
  deriving DecidableEq, Repr

/-- The function `registerUser(email, password, name, role)`: create the
account, then write the profile document under the returned uid; any error is
rethrown as `new Error(error.message)`. Returns the result, the store after the
call and the platform calls made. -/
def registerUser (st : IdentityStore) (email password name role : JsVal) :
    Except JsError NewUser × IdentityStore × List StoreCall :=
  match createUser st email password name with
  | (.error error, st1) =>
    (.error ⟨error.message⟩, st1, [StoreCall.createUser email password name])
  | (.ok userRecord, st1) =>
    let data : JsObject :=
      [("name", name), ("email", email), ("role", role), ("createdAt", JsVal.num st1.clock)]
    match usersDocSet st1 userRecord.uid data with
    | (.error error, st2) =>
      (.error ⟨error.message⟩, st2,
        [StoreCall.createUser email password name, StoreCall.docSet "users" userRecord.uid data])
    | (.ok _, st2) =>
      (.ok ⟨userRecord.uid, role⟩, st2,
        [StoreCall.createUser email password name, StoreCall.docSet "users" userRecord.uid data])

/-- The function `generateAuthToken(uid, role)`: sign `{ uid, role }` with the
module secret, expiring in one hour. -/
def generateAuthToken (svc : AuthService) (now : Nat) (uid role : JsVal) : Jwt :=
  jwtSign svc.hmac uid role svc.jwtSecret 3600 now

/-- The function `verifyAuthToken(token)`: the decoded payload, or `null`
(here `none`) when `jwt.verify` throws. -/
def verifyAuthToken (svc : AuthService) (now : Nat) (token : JwtArg) : Option Claims :=
  match jwtVerify svc.hmac token svc.jwtSecret now with
  | .ok decoded => some decoded
  | .error _ => none

/-! ## `authController.js` -/

/-- What a handler sends: `res.status(status).json({ message, uid, role, token, error })`,
with `none` for a property the body does not have. -/
structure Response where
  status : Nat
  message : String
  uid : Option String
  role : Option JsVal
  token : Option Jwt
  error : Option String
  deriving DecidableEq, Repr

/-- The outcome of running a handler: the response, the store afterwards and
the platform calls made. -/
structure HandlerResult where
  response : Response
  store : IdentityStore
  calls : List StoreCall
  deriving DecidableEq, Repr

/-- The `catch` block of `signup`. -/
def signupCatch (error : JsError) : Response :=
  if jsIncludes error.message "auth/email-already-in-use" then
    ⟨409, "Email is already in use. Please use a different email or login.",
      none, none, none, none⟩
  else
    ⟨500, "Failed to register user. Please try again.", none, none, none, some error.message⟩

/-- The handler `exports.signup`. -/
def signup (svc : AuthService) (st : IdentityStore) (now : Nat) (body : JsObject) :
    HandlerResult :=
  let email := body.get "email"
  let password := body.get "password"
  let name := body.get "name"
  let role := body.get "role"
  if !email.truthy || !password.truthy || !name.truthy || !role.truthy then
    ⟨⟨400, "All fields (email, password, name, role) are required for signup.",
        none, none, none, none⟩, st, []⟩
  else
    match registerUser st email password name role with
    | (.ok newUser, st1, calls) =>
      let token := generateAuthToken svc now (JsVal.str newUser.uid) newUser.role
      ⟨⟨201, "User registered successfully!", some newUser.uid, some newUser.role,
          some token, none⟩, st1, calls⟩
    | (.error error, st1, calls) => ⟨signupCatch error, st1, calls⟩

/-- The `catch` block of `login`. -/
def loginCatch (error : JsError) : Response :=
  if jsIncludes error.message "auth/user-not-found"
      || jsIncludes error.message "auth/wrong-password" then
    ⟨401, "Invalid credentials. Please check your email and password.",
      none, none, none, none⟩
  else
    ⟨500, "Login failed. Please try again later.", none, none, none, some error.message⟩

/-- The handler `exports.login`, with the imported `db` handle as a parameter. -/
def login (svc : AuthService) (db : Db) (st : IdentityStore) (now : Nat) (body : JsObject) :
    HandlerResult :=
  let email := body.get "email"
  let password := body.get "password"
  if !email.truthy || !password.truthy then
    ⟨⟨400, "Email and password are required for login.", none, none, none, none⟩, st, []⟩
  else
    match getUserByEmail st email with
    | .error error => ⟨loginCatch error, st, [StoreCall.getUserByEmail email]⟩
    | .ok userRecord =>
      let calls := [StoreCall.getUserByEmail email, StoreCall.docGet "users" userRecord.uid]
      match db "users" userRecord.uid with
      | .error error => ⟨loginCatch error, st, calls⟩
      | .ok userDoc =>
        if !userDoc.docExists then
          ⟨⟨404, "User profile not found in database.", none, none, none, none⟩, st, calls⟩
        else
          let userData := userDoc.data
          let role := userData.get "role"
          let token := generateAuthToken svc now (JsVal.str userRecord.uid) role
          ⟨⟨200, "Login successful!", some userRecord.uid, some role, some token, none⟩,
            st, calls⟩

/-! ## Module loading and `server.js` -/

/-- The process environment after `require('dotenv').config()`: variable names
with their string values. -/
abbrev Env := List (String × String)

/-- Loading `authService.js`: read `process.env.JWT_SECRET` and call
`process.exit(1)` when it is not set (absent or empty); otherwise the module is
loaded with that secret. The error value is the exit code. -/
def loadAuthService (hmac : Hmac) (env : Env) : Except Nat AuthService :=
  match env.lookup "JWT_SECRET" with
  | some jwtSecret =>
    if h : jwtSecret = "" then .error 1 else .ok ⟨hmac, jwtSecret, h⟩
  | none => .error 1

/-- A step of starting the server, in program order. -/
inductive BootStep
  | dotenvConfig
  | requireModule (path : String)
  | processExit (code : Nat)
  | createApp
  | useMiddleware (what : String)
  | mount (path : String)
  | listen (port : JsVal)
  deriving DecidableEq, Repr

/-- The expression `process.env.PORT || 5000`. -/
def serverPort (env : Env) : JsVal :=
  match env.lookup "PORT" with
  | some port => if port != "" then JsVal.str port else JsVal.num 5000
  | none => JsVal.num 5000

/-- Running `server.js`: the steps the process performs. The modules are
required before the application is created; requiring `authRoutes` loads
`authController`, whose first `require` loads `authService`, and the process
ends there when the secret is not set. -/
def serverBoot (hmac : Hmac) (env : Env) : List BootStep :=
  [BootStep.dotenvConfig,
    BootStep.requireModule "./services/auth/firebase",
    BootStep.requireModule "./routes/geminiRoutes",
    BootStep.requireModule "./routes/authRoutes",
    BootStep.requireModule "../controllers/authController",
    BootStep.requireModule "../services/auth/authService"] ++
  match loadAuthService hmac env with
  | .error code => [BootStep.processExit code]
  | .ok _ =>
    [BootStep.createApp,
      BootStep.useMiddleware "cors", BootStep.useMiddleware "json",
      BootStep.useMiddleware "urlencoded", BootStep.useMiddleware "static",
      BootStep.mount "/api/contact", BootStep.mount "/api/auth", BootStep.mount "/",
      BootStep.listen (serverPort env)]

/-- Is the step a call of `app.listen`? -/
def BootStep.isListen : BootStep → Bool
  | BootStep.listen _ => true
  | _ => false

/-! ## Contact submissions (`geminiRoutes.js`, `contactController.js`) -/

/-- Modelled from the spec: the Document Store behind the contact form, the
`contactSubmissions` collection and the error every call rejects with while the
store cannot be reached. -/
structure ContactStore where
  submissions : List (String × JsObject)
  outage : Option JsError
  deriving DecidableEq, Repr

/-- The call `db.collection(name).add(data)` of a Firestore handle: resolves
with the id of the new document. -/
abbrev AddHandle := ContactStore → String → JsObject → Except JsError String × ContactStore

/-- The `add` of the `db` object `firebase.js` exports: it logs, writes nothing
and resolves with `{ id: 'simulated-doc-id' }`. -/
def dbAdd : AddHandle :=
  fun store _ _ => (.ok "simulated-doc-id", store)

/-- What a contact handler sends: `res.status(status).json({ message, id, error })`. -/
structure ContactResponse where
  status : Nat
  message : String
  id : Option String
  error : Option String
  deriving DecidableEq, Repr

/-- The outcome of a contact handler: the response, the store afterwards and
the documents handed to `add`. -/
structure ContactResult where
  response : ContactResponse
  store : ContactStore
  added : List JsObject
  deriving DecidableEq, Repr

/-- The document both contact handlers hand to `add`. -/
def contactDocument (body : JsObject) (now : Nat) : JsObject :=
  [("firstName", body.get "firstName"), ("lastName", body.get "lastName"),
    ("email", body.get "email"), ("subject", body.get "subject"),
    ("message", body.get "message"), ("timestamp", JsVal.num now)]

/-- The handler `router.post('/', ...)` of `geminiRoutes.js`, mounted under
`/api/contact`, with the `add` of the imported `db` as a parameter. -/
def geminiRoutesPost (add : AddHandle) (store : ContactStore) (now : Nat) (body : JsObject) :
    ContactResult :=
  if !(body.get "firstName").truthy || !(body.get "lastName").truthy
      || !(body.get "email").truthy || !(body.get "subject").truthy
      || !(body.get "message").truthy then
    ⟨⟨400, "All fields are required.", none, none⟩, store, []⟩
  else
    match add store "contactSubmissions" (contactDocument body now) with
    | (.ok docId, store1) =>
      ⟨⟨200, "Message sent successfully! We will get back to you soon.", some docId, none⟩,
        store1, [contactDocument body now]⟩
    | (.error error, store1) =>
      ⟨⟨500, "Failed to send message. (Database currently bypassed). Please try again later.",
          none, some error.message⟩, store1, [contactDocument body now]⟩

/-- The handler `exports.submitContactForm` of `contactController.js`. -/
def submitContactForm (add : AddHandle) (store : ContactStore) (now : Nat) (body : JsObject) :
    ContactResult :=
  if !(body.get "firstName").truthy || !(body.get "lastName").truthy
      || !(body.get "email").truthy || !(body.get "subject").truthy
      || !(body.get "message").truthy then
    ⟨⟨400, "All fields are required.", none, none⟩, store, []⟩
  else
    match add store "contactSubmissions" (contactDocument body now) with
    | (.ok docId, store1) =>
      ⟨⟨200, "Message sent successfully! We will get back to you soon.", some docId, none⟩,
        store1, [contactDocument body now]⟩
    | (.error _, store1) =>
      ⟨⟨500, "Failed to send message. Please try again later.", none, none⟩,
        store1, [contactDocument body now]⟩

/-! ## Password hashing (`bcryptjs`) -/

/-- The key material bcrypt reads from a password: the first 72 bytes of its
NUL-terminated UTF-8 encoding. -/
def bcryptKey (password : String) : List UInt8 :=
  (utf8Bytes password ++ [0]).take 72

/-- The digest of `bcryptjs`, a parameter: the hash text for a cost, a salt and
the key material. -/
structure Bcrypt where
  digest : Nat → String → List UInt8 → String

/-- A bcrypt hash string, kept as its fields: `$2a$<cost>$<salt><digest>`. -/
structure BcryptHash where
  cost : Nat
  salt : String
  digest : String
  deriving DecidableEq, Repr

/-- The call `bcrypt.genSalt(rounds)`: a salt for that cost from the random
text the generator supplies. -/
def genSalt (rounds : Nat) (random : String) : Nat × String :=
  (rounds, random)

/-- The call `bcrypt.hash(password, salt)`. -/
def bcryptHash (bcrypt : Bcrypt) (password : String) (salt : Nat × String) : BcryptHash :=
  ⟨salt.1, salt.2, bcrypt.digest salt.1 salt.2 (bcryptKey password)⟩

/-- The call `bcrypt.compare(plain, hashed)`: hash the plain password with the
cost and salt of the stored hash and compare the digests. -/
def bcryptCompare (bcrypt : Bcrypt) (plain : String) (hashed : BcryptHash) : Bool :=
  bcrypt.digest hashed.cost hashed.salt (bcryptKey plain) == hashed.digest

/-- The function `hashPassword(password)`: `genSalt(10)`, then `hash`; `random`
is what the random generator supplies to this call. -/
def hashPassword (bcrypt : Bcrypt) (random : String) (password : String) : BcryptHash :=
  let salt := genSalt 10 random
  let hashedPassword := bcryptHash bcrypt password salt
  hashedPassword

/-- The function `comparePasswords(plainPassword, hashedPassword)`. -/
def comparePasswords (bcrypt : Bcrypt) (plainPassword : String) (hashedPassword : BcryptHash) :
    Bool :=
  bcryptCompare bcrypt plainPassword hashedPassword

/-! ## A working document store for contact submissions -/

/-- Modelled from the spec: a fresh document id, one character longer than
every id in the collection. -/
def freshDocId (docs : List (String × JsObject)) : String :=
  String.mk (List.replicate ((docs.map (fun d => d.1.length)).foldr max 0 + 1) 'd')

/-- Modelled from the spec: `collection(name).add(data)` of a working Document
Store: rejects while the store cannot be reached, otherwise stores the document
under a fresh id and resolves with that id. Only `contactSubmissions` is kept. -/
def firestoreAdd : AddHandle :=
  fun store collectionName data =>
    match store.outage with
    | some e => (.error e, store)
    | none =>
      if collectionName == "contactSubmissions" then
        (.ok (freshDocId store.submissions),
          { store with submissions := store.submissions ++ [(freshDocId store.submissions, data)] })
      else (.ok (freshDocId store.submissions), store)

/-- The guard of both contact handlers: some required field is falsy. -/
def contactFieldMissing (body : JsObject) : Bool :=
  !(body.get "firstName").truthy || !(body.get "lastName").truthy
    || !(body.get "email").truthy || !(body.get "subject").truthy
    || !(body.get "message").truthy

/-! ## Hero showcase (`dynamicContent.js`) -/

/-- The constant `showcaseItems`. -/
def showcaseItems : List String :=
  ["Fostering Leadership, Building Community",
    "Celebrating 10 Years of Impact!",
    "Join Our Next Big Event!",
    "Empowering Youth Through Service",
    "500+ Lives Touched Through Community Service",
    "Our Members, Our Strength - Join Us Today!"]

/-- The state of the showcase: `currentShowcaseIndex` and the text content of
the tagline element. -/
structure Showcase where
  currentShowcaseIndex : Nat
  textContent : String
  deriving DecidableEq, Repr

/-- The initial display (the tagline element exists): show the item at index 0
and advance the index. -/
def showcaseInit : Showcase :=
  let currentShowcaseIndex := 0
  ⟨(currentShowcaseIndex + 1) % showcaseItems.length,
    showcaseItems.getD currentShowcaseIndex ""⟩

/-- One completed run of `updateHeroShowcase`, the timeout callback included:
show the item at the current index and advance the index. -/
def updateHeroShowcase (s : Showcase) : Showcase :=
  ⟨(s.currentShowcaseIndex + 1) % showcaseItems.length,
    showcaseItems.getD s.currentShowcaseIndex ""⟩

/-- The showcase after the initial display and `k` completed updates. -/
def showcaseAfter : Nat → Showcase
  | 0 => showcaseInit
  | k + 1 => updateHeroShowcase (showcaseAfter k)

/-! ## Form handlers (`public/js/forms.js`) -/

/-- The property `length` of a JavaScript string: its UTF-16 code units. -/
def jsLength (s : String) : Nat :=
  (s.data.map (fun c => if c.val.toNat ≥ 65536 then 2 else 1)).sum

/-- The expression `a || b`. -/
def jsOr (a b : JsVal) : JsVal :=
  if a.truthy then a else b

/-- A call of `fetch`: the URL, the method and the object sent as JSON. -/
structure FetchRequest where
  url : String
  method : String
  body : JsObject
  deriving DecidableEq, Repr

/-- How a `fetch` call ends for the handler: the promise rejects, or the server
answers with `response.ok` and a body that `response.json()` parses (`none`
when parsing rejects). -/
inductive FetchOutcome
  | threw
  | answered (ok : Bool) (json : Option JsObject)
  deriving DecidableEq, Repr

/-- The part of the page a form handler touches: the submit button, the class
list of the body, the two message elements (`none` while hidden), the local
storage, whether the form was reset and the scheduled redirect. -/
structure Page where
  submitText : String
  submitDisabled : Bool
  bodyClasses : List String
  successMessage : Option JsVal
  errorMessage : Option JsVal
  localStorage : List (String × JsVal)
  formReset : Bool
  redirect : Option String
  deriving DecidableEq, Repr

/-- The call `classList.add(name)`. -/
def classAdd (name : String) (classes : List String) : List String :=
  if classes.contains name then classes else classes ++ [name]

/-- The call `classList.remove(name)`. -/
def classRemove (name : String) (classes : List String) : List String :=
  classes.filter (fun c => c != name)

/-- The functions `hideMessages` and `hideAuthMessages`. -/
def hideMessages (page : Page) : Page :=
  { page with successMessage := none, errorMessage := none }

/-- The call `showMessage(successMessage, text)`. -/
def showSuccess (page : Page) (text : JsVal) : Page :=
  { page with successMessage := some text }

/-- The call `showMessage(errorMessage, text)`. -/
def showError (page : Page) (text : JsVal) : Page :=
  { page with errorMessage := some text }

/-- The `finally` block of the three submit handlers: restore the button text,
enable the button and remove the `loading` class. -/
def finallyRestore (page : Page) (originalText : String) : Page :=
  { page with
    submitText := originalText,
    submitDisabled := false,
    bodyClasses := classRemove "loading" page.bodyClasses }

/-- The client-side check of the contact form. -/
def contactFormInvalid (data : JsObject) : Bool :=
  !(data.get "firstName").truthy || !(data.get "lastName").truthy
    || !(data.get "email").truthy || !(data.get "subject").truthy
    || !(data.get "message").truthy

/-- The submit handler of the contact form: the page afterwards and the
requests sent. `data` is the object made of the form entries. -/
def contactFormSubmit (page : Page) (data : JsObject) (fetch : FetchRequest → FetchOutcome) :
    Page × List FetchRequest :=
  let page := hideMessages page
  if contactFormInvalid data then
    (showError page (JsVal.str "Please fill in all required fields."), [])
  else
    let originalText := page.submitText
    let page :=
      { page with
        submitText := "Sending...",
        submitDisabled := true,
        bodyClasses := classAdd "loading" page.bodyClasses }
    let request : FetchRequest := ⟨"/api/contact", "POST", data⟩
    let page :=
      match fetch request with
      | .answered true (some result) =>
        { showSuccess page (jsOr (result.get "message")
            (JsVal.str "Message sent successfully! We will get back to you soon.")) with
          formReset := true }
      | .answered false (some errorResult) =>
        showError page (jsOr (errorResult.get "message")
          (JsVal.str "Failed to send message. Please try again."))
      | _ =>
        showError page (JsVal.str
          "An error occurred. Please check your internet connection and try again.")
    (finallyRestore page originalText, [request])

/-- The values of the login form. -/
structure LoginFields where
  email : String
  password : String
  role : String
  deriving DecidableEq, Repr

/-- The client-side check of the login form. -/
def loginFormInvalid (formData : LoginFields) : Bool :=
  formData.email == "" || formData.password == "" || formData.role == ""

/-- The submit handler of the login form. -/
def loginFormSubmit (page : Page) (formData : LoginFields) (fetch : FetchRequest → FetchOutcome) :
    Page × List FetchRequest :=
  let page := hideMessages page
  if loginFormInvalid formData then
    (showError page (JsVal.str "Please fill in all fields."), [])
  else
    let page := { page with bodyClasses := classAdd "loading" page.bodyClasses }
    let originalText := page.submitText
    let page := { page with submitText := "Logging in...", submitDisabled := true }
    let request : FetchRequest :=
      ⟨"/api/auth/login", "POST",
        [("email", JsVal.str formData.email), ("password", JsVal.str formData.password),
          ("role", JsVal.str formData.role)]⟩
    let page :=
      match fetch request with
      | .answered true (some result) =>
        { showSuccess page (jsOr (result.get "message")
            (JsVal.str "Login successful! Redirecting...")) with
          localStorage := page.localStorage ++
            [("authToken", result.get "token"), ("userRole", result.get "role"),
              ("userUID", result.get "uid")],
          redirect := some "index.html" }
      | .answered false (some errorResult) =>
        showError page (jsOr (errorResult.get "message")
          (JsVal.str "Login failed. Please try again."))
      | _ =>
        showError page (JsVal.str
          "An error occurred during login. Please check your internet connection and try again.")
    (finallyRestore page originalText, [request])

/-- The values of the signup form. -/
structure SignupFields where
  name : String
  email : String
  password : String
  confirmPassword : String
  role : String
  deriving DecidableEq, Repr

/-- The submit handler of the signup form. -/
def signupFormSubmit (page : Page) (fields : SignupFields)
    (fetch : FetchRequest → FetchOutcome) : Page × List FetchRequest :=
  let page := hideMessages page
  let password := fields.password
  let confirmPassword := fields.confirmPassword
  if password != confirmPassword then
    (showError page (JsVal.str "Passwords do not match!"), [])
  else if jsLength password < 6 then
    (showError page (JsVal.str "Password must be at least 6 characters long."), [])
  else if fields.name == "" || fields.email == "" || password == "" || fields.role == "" then
    (showError page (JsVal.str "Please fill in all fields."), [])
  else
    let page := { page with bodyClasses := classAdd "loading" page.bodyClasses }
    let originalText := page.submitText
    let page := { page with submitText := "Creating account...", submitDisabled := true }
    let request : FetchRequest :=
      ⟨"/api/auth/signup", "POST",
        [("name", JsVal.str fields.name), ("email", JsVal.str fields.email),
          ("password", JsVal.str password), ("role", JsVal.str fields.role)]⟩
    let page :=
      match fetch request with
      | .answered true (some result) =>
        { showSuccess page (jsOr (result.get "message")
            (JsVal.str "Account created successfully! Redirecting to homepage...")) with
          localStorage := page.localStorage ++
            [("authToken", result.get "token"), ("userRole", result.get "role"),
              ("userUID", result.get "uid")],
          formReset := true,
          redirect := some "index.html" }
      | .answered false (some errorResult) =>
        showError page (jsOr (errorResult.get "message")
          (JsVal.str "Registration failed. Please try again."))
      | _ =>
        showError page (JsVal.str
          "An error occurred during registration. Please check your internet connection and try again.")
    (finallyRestore page originalText, [request])

/-- The client-side check of the signup form, in the words of its three
messages: the passwords match, the password has at least 6 characters (UTF-16
code units, as `length` counts) and no field is empty. -/
def signupFormValid (fields : SignupFields) : Bool :=
  fields.password == fields.confirmPassword && decide (6 ≤ jsLength fields.password)
    && fields.name != "" && fields.email != "" && fields.password != "" && fields.role != ""

/-! ## Token validity in the words of the documentation -/

/-- The validity `verifyAuthToken` is documented to decide: the argument is a
compact token with an HMAC algorithm, its signature is the MAC of its header
and payload under the module secret, and it has not reached its expiry. -/
def tokenValid (svc : AuthService) (now : Nat) : JwtArg → Bool
  | JwtArg.compact t =>
    t.alg != JwtAlg.unsecured
      && t.signature == svc.hmac.mac t.alg svc.jwtSecret t.payload
      && (match t.payload.exp with
          | some e => decide (now < e)
          | none => true)
  | _ => false

/-- The payload a token argument carries, if it is a compact token. -/
def JwtArg.payload : JwtArg → Option Claims
  | JwtArg.compact t => some t.payload
  | _ => none

/-- The token with character `i` of its signature segment changed to `c`. -/
def tamperSignature (t : Jwt) (i : Nat) (c : Char) : Jwt :=
  { t with signature := String.mk (t.signature.data.set i c) }

/-! ## Credential check of the spec and sample data -/

/-- Modelled from the spec: the check of `verifyCredentials`, which the
repository does not implement: the supplied password is the password of the
account with the supplied email. -/
def credentialsValid (st : IdentityStore) (email password : JsVal) : Bool :=
  match email, password with
  | .str em, .str pw =>
    match st.findByEmail em with
    | some a => a.password == pw
    | none => false
  | _, _ => false

/-- A toy MAC for the examples: the prepared key, written out behind a fixed
tag. -/
def sampleHmac : Hmac :=
  ⟨fun alg secret _ =>
      "mac:" ++ String.mk ((hmacKey alg secret).map (fun b => Char.ofNat b.toNat)),
    fun _ _ _ h => by
      have hlen := congrArg String.length h
      simp [String.length_append] at hlen
      exact absurd hlen.1 (by decide),
    fun _ _ _ _ h => by
      simp only [h]⟩

/-- A loaded service module with the secret `s3cret`. -/
def sampleService : AuthService :=
  ⟨sampleHmac, "s3cret", by decide⟩

/-- A reachable store without accounts. Its errors have the message texts of
the Firebase Admin SDK, which carries the codes `auth/email-already-exists`,
`auth/user-not-found` and `auth/invalid-password` in `error.code`, not in the
message. -/
def emptyStore : IdentityStore :=
  { accounts := [], users := [], clock := 7, authOutage := none, firestoreOutage := none,
    emailInUse := ⟨"The email address is already in use by another account."⟩,
    userNotFound := ⟨"There is no user record corresponding to the provided identifier."⟩,
    invalidArgument := ⟨"The password must be a string with at least 6 characters."⟩ }

/-- The store after `a@x.com` signed up with password `secret1` as a member. -/
def memberStore : IdentityStore :=
  { emptyStore with
    accounts := [⟨"u", "a@x.com", "secret1", "A"⟩],
    users := [("u", [("name", JsVal.str "A"), ("email", JsVal.str "a@x.com"),
      ("role", JsVal.str "member"), ("createdAt", JsVal.num 7)])] }

/-- The signup request of the spec's scenario. -/
def signupBody : JsObject :=
  [("email", JsVal.str "a@x.com"), ("password", JsVal.str "secret1"),
    ("name", JsVal.str "A"), ("role", JsVal.str "member")]

/-- A login request for `a@x.com` with a password that is not the account's. -/
def wrongPasswordBody : JsObject :=
  [("email", JsVal.str "a@x.com"), ("password", JsVal.str "wrong")]

/-- A login request for an email without an account. -/
def unknownEmailBody : JsObject :=
  [("email", JsVal.str "b@x.com"), ("password", JsVal.str "secret1")]

/-- A store whose authentication service cannot be reached. -/
def unreachableStore : IdentityStore :=
  { emptyStore with authOutage := some ⟨"connect ECONNREFUSED"⟩ }

/-- A loaded service module with another secret. -/
def otherService : AuthService :=
  ⟨sampleHmac, "other", by decide⟩

/-- A loaded service module whose secret is `s3cret` followed by a NUL
character. -/
def paddedSecretService : AuthService :=
  ⟨sampleHmac, "s3cret\x00", by decide⟩

/-- A complete contact submission. -/
def contactBody : JsObject :=
  [("firstName", JsVal.str "Ada"), ("lastName", JsVal.str "L"),
    ("email", JsVal.str "ada@x.com"), ("subject", JsVal.str "Hello"),
    ("message", JsVal.str "Hi there")]

/-- An empty, reachable contact store. -/
def emptyContactStore : ContactStore :=
  ⟨[], none⟩

/-- The member store with the profile document of `a@x.com` removed. -/
def noProfileStore : IdentityStore :=
  { memberStore with users := [] }

/-- An environment without `JWT_SECRET`. -/
def envWithoutSecret : Env :=
  [("PORT", "8080")]

/-- An environment whose `JWT_SECRET` is the empty string. -/
def envEmptySecret : Env :=
  [("JWT_SECRET", ""), ("PORT", "8080")]

/-- An environment with a secret. -/
def envWithSecret : Env :=
  [("JWT_SECRET", "s3cret")]

/-- A page before a submission: an enabled button reading `Send`. -/
def idlePage : Page :=
  ⟨"Send", false, ["dark"], none, none, [], false, none⟩

/-- A server that answers every request with an error status. -/
def failingServer : FetchRequest → FetchOutcome :=
  fun _ => FetchOutcome.answered false (some [("message", JsVal.str "Nope")])

/-- A server that answers every request with success. -/
def acceptingServer : FetchRequest → FetchOutcome :=
  fun _ => FetchOutcome.answered true (some [("message", JsVal.str "Done"),
    ("token", JsVal.str "t"), ("role", JsVal.str "member"), ("uid", JsVal.str "u")])

/-- A network that drops every request. -/
def brokenNetwork : FetchRequest → FetchOutcome :=
  fun _ => FetchOutcome.threw

/-- A valid signup form. -/
def signupFields : SignupFields :=
  ⟨"A", "a@x.com", "secret1", "secret1", "member"⟩

/-- A signup form whose passwords differ and are short. -/
def mismatchFields : SignupFields :=
  ⟨"A", "a@x.com", "abc", "abd", "member"⟩

/-- A valid login form. -/
def loginFields : LoginFields :=
  ⟨"a@x.com", "secret1", "member"⟩

/-- A toy bcrypt digest for the examples: the cost in unary, the salt and the
key material written out. -/
def sampleBcrypt : Bcrypt :=
  ⟨fun cost salt key =>
    String.mk (List.replicate cost 'c') ++ salt ++ String.mk (key.map (fun b => Char.ofNat b.toNat))⟩

/-- A password of 72 bytes. -/
def longPassword : String :=
  String.mk (List.replicate 72 'a')

/-- A signup request whose password is a number. -/
def numericPasswordBody : JsObject :=
  [("email", JsVal.str "n@x.com"), ("password", JsVal.num 123456),
    ("name", JsVal.str "N"), ("role", JsVal.str "member")]

/-! ## Lemmas about the handlers -/

theorem loginCatch_status (error : JsError) :
    (loginCatch error).status = 401 ∨ (loginCatch error).status = 500 := by
  unfold loginCatch
  split <;> simp

theorem loginCatch_token (error : JsError) : (loginCatch error).token = none := by
  unfold loginCatch
  split <;> rfl

theorem loginCatch_of_includes (error : JsError)
    (h : jsIncludes error.message "auth/user-not-found" = true) :
    loginCatch error =
      ⟨401, "Invalid credentials. Please check your email and password.",
        none, none, none, none⟩ := by
  simp [loginCatch, h]

theorem signupCatch_status (error : JsError) :
    (signupCatch error).status = 409 ∨ (signupCatch error).status = 500 := by
  unfold signupCatch
  split <;> simp

theorem signupCatch_token (error : JsError) : (signupCatch error).token = none := by
  unfold signupCatch
  split <;> rfl

theorem truthy_false_iff_missing (v : JsVal) (h : v.isStringOrAbsent = true) :
    v.truthy = false ↔ v = JsVal.undefined ∨ v = JsVal.str "" := by
  cases v <;> simp [JsVal.truthy, JsVal.isStringOrAbsent] at h ⊢

theorem getUserByEmail_of_account (st : IdentityStore) (em : String) (a : Account)
    (hreach : st.authOutage = none) (hacc : st.findByEmail em = some a) :
    getUserByEmail st (JsVal.str em) = .ok ⟨a.uid⟩ := by
  simp [getUserByEmail, hreach, hacc]

theorem getUserByEmail_of_no_account (st : IdentityStore) (em : String)
    (hreach : st.authOutage = none) (hnone : st.findByEmail em = none) :
    getUserByEmail st (JsVal.str em) = .error st.userNotFound := by
  simp [getUserByEmail, hreach, hnone]

theorem login_missing_field (svc : AuthService) (db : Db) (st : IdentityStore) (now : Nat)
    (body : JsObject)
    (h : (body.get "email").truthy = false ∨ (body.get "password").truthy = false) :
    login svc db st now body =
      ⟨⟨400, "Email and password are required for login.", none, none, none, none⟩, st, []⟩ := by
  unfold login
  rcases h with h | h <;> simp [h]

theorem login_status_400 (svc : AuthService) (db : Db) (st : IdentityStore) (now : Nat)
    (body : JsObject) (h : (login svc db st now body).response.status = 400) :
    (body.get "email").truthy = false ∨ (body.get "password").truthy = false := by
  by_contra hc
  simp only [not_or, Bool.not_eq_false] at hc
  unfold login at h
  simp only [hc.1, hc.2, Bool.not_true, Bool.or_self, Bool.false_eq_true, if_false] at h
  cases hu : getUserByEmail st (body.get "email") with
  | error e =>
    rw [hu] at h
    rcases loginCatch_status e with h1 | h1 <;> simp [h1] at h
  | ok userRecord =>
    rw [hu] at h
    cases hd : db "users" userRecord.uid with
    | error e =>
      simp only [hd] at h
      rcases loginCatch_status e with h1 | h1 <;> simp [h1] at h
    | ok userDoc =>
      simp only [hd] at h
      cases hx : userDoc.docExists <;> simp [hx] at h

theorem login_lookup_failed (svc : AuthService) (db : Db) (st : IdentityStore) (now : Nat)
    (body : JsObject) (error : JsError)
    (he : (body.get "email").truthy = true) (hp : (body.get "password").truthy = true)
    (hu : getUserByEmail st (body.get "email") = .error error) :
    login svc db st now body =
      ⟨loginCatch error, st, [StoreCall.getUserByEmail (body.get "email")]⟩ := by
  unfold login
  simp [he, hp, hu]

theorem login_no_account_no_token (svc : AuthService) (db : Db) (st : IdentityStore) (now : Nat)
    (body : JsObject) (error : JsError)
    (hu : getUserByEmail st (body.get "email") = .error error) :
    (login svc db st now body).response.status ≠ 200 ∧
      (login svc db st now body).response.token = none := by
  by_cases he : (body.get "email").truthy = true
  · by_cases hp : (body.get "password").truthy = true
    · rw [login_lookup_failed svc db st now body error he hp hu]
      refine ⟨?_, loginCatch_token error⟩
      rcases loginCatch_status error with h1 | h1 <;> simp [h1]
    · rw [login_missing_field svc db st now body (Or.inr (by simpa using hp))]
      simp
  · rw [login_missing_field svc db st now body (Or.inl (by simpa using he))]
    simp

theorem str_truthy (s : String) : (JsVal.str s).truthy = true ↔ s ≠ "" := by
  simp [JsVal.truthy]

theorem login_found (svc : AuthService) (db : Db) (st : IdentityStore) (now : Nat)
    (body : JsObject) (userRecord : UserRecord) (data : JsObject)
    (he : (body.get "email").truthy = true) (hp : (body.get "password").truthy = true)
    (hu : getUserByEmail st (body.get "email") = .ok userRecord)
    (hd : db "users" userRecord.uid = .ok ⟨true, data⟩) :
    login svc db st now body =
      ⟨⟨200, "Login successful!", some userRecord.uid, some (data.get "role"),
          some (generateAuthToken svc now (JsVal.str userRecord.uid) (data.get "role")), none⟩,
        st, [StoreCall.getUserByEmail (body.get "email"),
          StoreCall.docGet "users" userRecord.uid]⟩ := by
  unfold login
  simp [he, hp, hu, hd]

theorem signupCatch_of_includes (error : JsError)
    (h : jsIncludes error.message "auth/email-already-in-use" = true) :
    signupCatch error =
      ⟨409, "Email is already in use. Please use a different email or login.",
        none, none, none, none⟩ := by
  simp [signupCatch, h]

theorem signupCatch_of_not_includes (error : JsError)
    (h : jsIncludes error.message "auth/email-already-in-use" = false) :
    signupCatch error =
      ⟨500, "Failed to register user. Please try again.", none, none, none,
        some error.message⟩ := by
  simp [signupCatch, h]

theorem signup_missing_field (svc : AuthService) (st : IdentityStore) (now : Nat)
    (body : JsObject)
    (h : (body.get "email").truthy = false ∨ (body.get "password").truthy = false ∨
      (body.get "name").truthy = false ∨ (body.get "role").truthy = false) :
    signup svc st now body =
      ⟨⟨400, "All fields (email, password, name, role) are required for signup.",
          none, none, none, none⟩, st, []⟩ := by
  unfold signup
  rcases h with h | h | h | h <;> simp [h]

theorem signup_all_fields (svc : AuthService) (st : IdentityStore) (now : Nat)
    (body : JsObject)
    (he : (body.get "email").truthy = true) (hp : (body.get "password").truthy = true)
    (hn : (body.get "name").truthy = true) (hr : (body.get "role").truthy = true) :
    signup svc st now body =
      match registerUser st (body.get "email") (body.get "password") (body.get "name")
          (body.get "role") with
      | (.ok newUser, st1, calls) =>
        ⟨⟨201, "User registered successfully!", some newUser.uid, some newUser.role,
            some (generateAuthToken svc now (JsVal.str newUser.uid) newUser.role), none⟩,
          st1, calls⟩
      | (.error error, st1, calls) => ⟨signupCatch error, st1, calls⟩ := by
  unfold signup
  simp [he, hp, hn, hr]

theorem signup_status_400 (svc : AuthService) (st : IdentityStore) (now : Nat)
    (body : JsObject) (h : (signup svc st now body).response.status = 400) :
    (body.get "email").truthy = false ∨ (body.get "password").truthy = false ∨
      (body.get "name").truthy = false ∨ (body.get "role").truthy = false := by
  by_contra hc
  simp only [not_or, Bool.not_eq_false] at hc
  rw [signup_all_fields svc st now body hc.1 hc.2.1 hc.2.2.1 hc.2.2.2] at h
  rcases hreg : registerUser st (body.get "email") (body.get "password") (body.get "name")
      (body.get "role") with ⟨res, st1, calls⟩
  rw [hreg] at h
  cases res with
  | ok newUser => simp at h
  | error e =>
    rcases signupCatch_status e with h1 | h1 <;> simp [h1] at h

theorem freshUid_ne_empty (accounts : List Account) : freshUid accounts ≠ "" := by
  intro h
  have hd := congrArg String.data h
  simp [freshUid, List.replicate_succ] at hd

theorem registerUser_fresh (st : IdentityStore) (em pw nm : String) (role : JsVal)
    (hreach : st.authOutage = none) (hfs : st.firestoreOutage = none)
    (hfresh : st.findByEmail em = none) :
    registerUser st (JsVal.str em) (JsVal.str pw) (JsVal.str nm) role =
      (.ok ⟨freshUid st.accounts, role⟩,
        { st with
          accounts := st.accounts ++ [⟨freshUid st.accounts, em, pw, nm⟩],
          users := (freshUid st.accounts,
              [("name", JsVal.str nm), ("email", JsVal.str em), ("role", role),
                ("createdAt", JsVal.num st.clock)])
            :: st.users.filter (fun d => d.1 != freshUid st.accounts) },
        [StoreCall.createUser (JsVal.str em) (JsVal.str pw) (JsVal.str nm),
          StoreCall.docSet "users" (freshUid st.accounts)
            [("name", JsVal.str nm), ("email", JsVal.str em), ("role", role),
              ("createdAt", JsVal.num st.clock)]]) := by
  simp [registerUser, createUser, usersDocSet, hreach, hfs, hfresh]

theorem registerUser_in_use (st : IdentityStore) (em pw nm : String) (role : JsVal)
    (a : Account) (hreach : st.authOutage = none) (hacc : st.findByEmail em = some a) :
    registerUser st (JsVal.str em) (JsVal.str pw) (JsVal.str nm) role =
      (.error ⟨st.emailInUse.message⟩, st,
        [StoreCall.createUser (JsVal.str em) (JsVal.str pw) (JsVal.str nm)]) := by
  simp [registerUser, createUser, hreach, hacc]

theorem findByEmail_after_create (st : IdentityStore) (em pw nm uid : String)
    (users : List (String × JsObject)) (hfresh : st.findByEmail em = none) :
    IdentityStore.findByEmail
        { st with accounts := st.accounts ++ [⟨uid, em, pw, nm⟩], users := users } em
      = some ⟨uid, em, pw, nm⟩ := by
  unfold IdentityStore.findByEmail at hfresh ⊢
  simp only [List.find?_append, hfresh]
  simp

theorem jwtVerify_jwtSign (hmac : Hmac) (uid role : JsVal) (secret : String)
    (expiresIn now later : Nat) (h : later < now + expiresIn) :
    jwtVerify hmac (JwtArg.compact (jwtSign hmac uid role secret expiresIn now)) secret later
      = .ok ⟨uid, role, some now, some (now + expiresIn)⟩ := by
  have hne := hmac.mac_ne JwtAlg.HS256 secret ⟨uid, role, some now, some (now + expiresIn)⟩
  simp [jwtVerify, jwtSign, hne]
  omega

theorem verifyAuthToken_generateAuthToken (svc : AuthService) (now : Nat) (uid role : JsVal) :
    verifyAuthToken svc now (JwtArg.compact (generateAuthToken svc now uid role))
      = some ⟨uid, role, some now, some (now + 3600)⟩ := by
  unfold verifyAuthToken generateAuthToken
  rw [jwtVerify_jwtSign svc.hmac uid role svc.jwtSecret 3600 now now (by omega)]

theorem signup_sample_store :
    (signup sampleService emptyStore 100 signupBody).store = memberStore := by
  decide

theorem login_response_cases (svc : AuthService) (db : Db) (st : IdentityStore) (now : Nat)
    (body : JsObject) :
    (login svc db st now body).response
        = ⟨400, "Email and password are required for login.", none, none, none, none⟩ ∨
      (∃ error, (login svc db st now body).response = loginCatch error) ∨
      (login svc db st now body).response
        = ⟨404, "User profile not found in database.", none, none, none, none⟩ ∨
      ∃ uid role, (login svc db st now body).response
        = ⟨200, "Login successful!", some uid, some role,
            some (generateAuthToken svc now (JsVal.str uid) role), none⟩ := by
  unfold login
  by_cases hf : (!(body.get "email").truthy || !(body.get "password").truthy) = true
  · simp [hf]
  · simp only [hf]
    cases hu : getUserByEmail st (body.get "email") with
    | error e => exact Or.inr (Or.inl ⟨e, by simp⟩)
    | ok userRecord =>
      cases hd : db "users" userRecord.uid with
      | error e => exact Or.inr (Or.inl ⟨e, by simp [hd]⟩)
      | ok userDoc =>
        cases hx : userDoc.docExists with
        | false => exact Or.inr (Or.inr (Or.inl (by simp [hd, hx])))
        | true =>
          exact Or.inr (Or.inr (Or.inr ⟨userRecord.uid, userDoc.data.get "role",
            by simp [hd, hx]⟩))

theorem signup_response_cases (svc : AuthService) (st : IdentityStore) (now : Nat)
    (body : JsObject) :
    (signup svc st now body).response
        = ⟨400, "All fields (email, password, name, role) are required for signup.",
            none, none, none, none⟩ ∨
      (∃ error, (signup svc st now body).response = signupCatch error) ∨
      ∃ uid role, (signup svc st now body).response
        = ⟨201, "User registered successfully!", some uid, some role,
            some (generateAuthToken svc now (JsVal.str uid) role), none⟩ := by
  unfold signup
  by_cases hf : (!(body.get "email").truthy || !(body.get "password").truthy
      || !(body.get "name").truthy || !(body.get "role").truthy) = true
  · simp [hf]
  · simp only [hf]
    rcases hreg : registerUser st (body.get "email") (body.get "password") (body.get "name")
        (body.get "role") with ⟨res, st1, calls⟩
    cases res with
    | error e => exact Or.inr (Or.inl ⟨e, by simp⟩)
    | ok newUser => exact Or.inr (Or.inr ⟨newUser.uid, newUser.role, by simp⟩)

theorem loginCatch_error_field (error : JsError) :
    (loginCatch error).error
      = if (loginCatch error).status = 500 then some error.message else none := by
  unfold loginCatch
  split <;> simp

theorem signupCatch_error_field (error : JsError) :
    (signupCatch error).error
      = if (signupCatch error).status = 500 then some error.message else none := by
  unfold signupCatch
  split <;> simp

theorem loginCatch_message (error : JsError) :
    (loginCatch error).message = "Invalid credentials. Please check your email and password." ∨
      (loginCatch error).message = "Login failed. Please try again later." := by
  unfold loginCatch
  split <;> simp

theorem signupCatch_message (error : JsError) :
    (signupCatch error).message
        = "Email is already in use. Please use a different email or login." ∨
      (signupCatch error).message = "Failed to register user. Please try again." := by
  unfold signupCatch
  split <;> simp

theorem jwtVerify_generateAuthToken (svc : AuthService) (issued later : Nat)
    (uid role : JsVal) :
    jwtVerify svc.hmac (JwtArg.compact (generateAuthToken svc issued uid role))
        svc.jwtSecret later
      = if later ≥ issued + 3600 then .error JwtError.expired
        else .ok ⟨uid, role, some issued, some (issued + 3600)⟩ := by
  have hne := svc.hmac.mac_ne JwtAlg.HS256 svc.jwtSecret
    ⟨uid, role, some issued, some (issued + 3600)⟩
  simp [jwtVerify, generateAuthToken, jwtSign, hne]

theorem set_ne_of_ne (l : List Char) (i : Nat) (c : Char) (hi : i < l.length)
    (hc : l.get ⟨i, hi⟩ ≠ c) : l.set i c ≠ l := by
  intro h
  apply hc
  have hlen : i < (l.set i c).length := by simpa using hi
  have hget : (l.set i c)[i] = c := by simp
  have hcongr : (l.set i c)[i] = l[i] := by simp only [h]
  rw [List.get_eq_getElem, ← hcongr, hget]

theorem uid_length_le_max (accounts : List Account) (a : Account) (ha : a ∈ accounts) :
    a.uid.length ≤ (accounts.map (fun a => a.uid.length)).foldr max 0 := by
  induction accounts with
  | nil => cases ha
  | cons b rest ih =>
    simp only [List.map_cons, List.foldr_cons]
    rcases List.mem_cons.1 ha with h | h
    · subst h
      exact Nat.le_max_left _ _
    · exact Nat.le_trans (ih h) (Nat.le_max_right _ _)

theorem freshUid_length (accounts : List Account) :
    (freshUid accounts).length = (accounts.map (fun a => a.uid.length)).foldr max 0 + 1 := by
  unfold freshUid
  show (List.replicate _ 'u').length = _
  exact List.length_replicate _ _

theorem freshUid_fresh (accounts : List Account) (a : Account) (ha : a ∈ accounts) :
    a.uid ≠ freshUid accounts := by
  intro h
  have hle := uid_length_le_max accounts a ha
  have hlen := freshUid_length accounts
  rw [← h] at hlen
  omega

theorem serverBoot_with_secret :
    (serverBoot sampleHmac envWithSecret).getLast? = some (BootStep.listen (JsVal.num 5000)) := by
  decide

theorem contact_all_fields (body : JsObject)
    (h1 : (body.get "firstName").truthy = true) (h2 : (body.get "lastName").truthy = true)
    (h3 : (body.get "email").truthy = true) (h4 : (body.get "subject").truthy = true)
    (h5 : (body.get "message").truthy = true) :
    (!(body.get "firstName").truthy || !(body.get "lastName").truthy
      || !(body.get "email").truthy || !(body.get "subject").truthy
      || !(body.get "message").truthy) = false := by
  simp [h1, h2, h3, h4, h5]

theorem registerUser_auth_outage (st : IdentityStore) (error : JsError)
    (email password name role : JsVal) (h : st.authOutage = some error) :
    registerUser st email password name role
      = (.error ⟨error.message⟩, st, [StoreCall.createUser email password name]) := by
  simp [registerUser, createUser, h]

theorem registerUser_calls_head (st : IdentityStore) (email password name role : JsVal) :
    (registerUser st email password name role).2.2.head?
      = some (StoreCall.createUser email password name) := by
  unfold registerUser
  rcases hc : createUser st email password name with ⟨res, st1⟩
  cases res with
  | error e => rfl
  | ok userRecord =>
    simp only
    rcases hs : usersDocSet st1 userRecord.uid _ with ⟨res2, st2⟩
    cases res2 <;> rfl

theorem createUser_users (st : IdentityStore) (email password name : JsVal) :
    (createUser st email password name).2.users = st.users := by
  unfold createUser
  cases st.authOutage with
  | some e => rfl
  | none =>
    cases email <;> try rfl
    cases password <;> try rfl
    cases name <;> try rfl
    simp only
    cases st.findByEmail _ <;> rfl

theorem contact_guard_eq (body : JsObject) :
    (!(body.get "firstName").truthy || !(body.get "lastName").truthy
      || !(body.get "email").truthy || !(body.get "subject").truthy
      || !(body.get "message").truthy) = contactFieldMissing body := rfl

theorem geminiRoutesPost_missing (add : AddHandle) (store : ContactStore) (now : Nat)
    (body : JsObject) (h : contactFieldMissing body = true) :
    geminiRoutesPost add store now body
      = ⟨⟨400, "All fields are required.", none, none⟩, store, []⟩ := by
  unfold geminiRoutesPost
  rw [contact_guard_eq, if_pos h]

theorem submitContactForm_missing (add : AddHandle) (store : ContactStore) (now : Nat)
    (body : JsObject) (h : contactFieldMissing body = true) :
    submitContactForm add store now body
      = ⟨⟨400, "All fields are required.", none, none⟩, store, []⟩ := by
  unfold submitContactForm
  rw [contact_guard_eq, if_pos h]

theorem geminiRoutesPost_complete (add : AddHandle) (store : ContactStore) (now : Nat)
    (body : JsObject) (h : contactFieldMissing body = false) :
    geminiRoutesPost add store now body
      = match add store "contactSubmissions" (contactDocument body now) with
        | (.ok docId, store1) =>
          ⟨⟨200, "Message sent successfully! We will get back to you soon.", some docId, none⟩,
            store1, [contactDocument body now]⟩
        | (.error error, store1) =>
          ⟨⟨500,
              "Failed to send message. (Database currently bypassed). Please try again later.",
              none, some error.message⟩, store1, [contactDocument body now]⟩ := by
  unfold geminiRoutesPost
  rw [contact_guard_eq, h]
  simp

theorem submitContactForm_complete (add : AddHandle) (store : ContactStore) (now : Nat)
    (body : JsObject) (h : contactFieldMissing body = false) :
    submitContactForm add store now body
      = match add store "contactSubmissions" (contactDocument body now) with
        | (.ok docId, store1) =>
          ⟨⟨200, "Message sent successfully! We will get back to you soon.", some docId, none⟩,
            store1, [contactDocument body now]⟩
        | (.error _, store1) =>
          ⟨⟨500, "Failed to send message. Please try again later.", none, none⟩,
            store1, [contactDocument body now]⟩ := by
  unfold submitContactForm
  rw [contact_guard_eq, h]
  simp

theorem contactFieldMissing_iff (body : JsObject)
    (h1 : (body.get "firstName").isStringOrAbsent = true)
    (h2 : (body.get "lastName").isStringOrAbsent = true)
    (h3 : (body.get "email").isStringOrAbsent = true)
    (h4 : (body.get "subject").isStringOrAbsent = true)
    (h5 : (body.get "message").isStringOrAbsent = true) :
    contactFieldMissing body = true ↔
      ((body.get "firstName" = JsVal.undefined ∨ body.get "firstName" = JsVal.str "") ∨
        (body.get "lastName" = JsVal.undefined ∨ body.get "lastName" = JsVal.str "") ∨
        (body.get "email" = JsVal.undefined ∨ body.get "email" = JsVal.str "") ∨
        (body.get "subject" = JsVal.undefined ∨ body.get "subject" = JsVal.str "") ∨
        (body.get "message" = JsVal.undefined ∨ body.get "message" = JsVal.str "")) := by
  rw [← truthy_false_iff_missing _ h1, ← truthy_false_iff_missing _ h2,
    ← truthy_false_iff_missing _ h3, ← truthy_false_iff_missing _ h4,
    ← truthy_false_iff_missing _ h5]
  simp only [contactFieldMissing, Bool.or_eq_true, Bool.not_eq_true', or_assoc]

theorem showcaseItems_length : showcaseItems.length = 6 := rfl

theorem showcaseAfter_state (k : Nat) :
    (showcaseAfter k).currentShowcaseIndex = (k + 1) % 6 ∧
      (showcaseAfter k).textContent = showcaseItems.getD (k % 6) "" := by
  induction k with
  | zero => exact ⟨rfl, rfl⟩
  | succ n ih =>
    constructor
    · show ((showcaseAfter n).currentShowcaseIndex + 1) % showcaseItems.length = _
      rw [ih.1, showcaseItems_length]
      omega
    · show showcaseItems.getD (showcaseAfter n).currentShowcaseIndex "" = _
      rw [ih.1]

theorem showcaseItems_get (i : Nat) (h : i < 6) :
    showcaseItems.get? i = some (showcaseItems.getD i "") := by
  interval_cases i <;> rfl

theorem login_same_email (svc : AuthService) (db : Db) (st : IdentityStore) (now : Nat)
    (body1 body2 : JsObject) (hemail : body1.get "email" = body2.get "email")
    (hp1 : (body1.get "password").truthy = true) (hp2 : (body2.get "password").truthy = true) :
    login svc db st now body1 = login svc db st now body2 := by
  unfold login
  simp only [hemail, hp1, hp2]

theorem login_placeholder_found (svc : AuthService) (st : IdentityStore) (now : Nat)
    (body : JsObject) (userRecord : UserRecord)
    (he : (body.get "email").truthy = true) (hp : (body.get "password").truthy = true)
    (hu : getUserByEmail st (body.get "email") = .ok userRecord) :
    login svc db st now body
      = ⟨⟨404, "User profile not found in database.", none, none, none, none⟩, st,
          [StoreCall.getUserByEmail (body.get "email"),
            StoreCall.docGet "users" userRecord.uid]⟩ := by
  unfold login
  simp [he, hp, hu, db]

theorem not_mem_classRemove (name : String) (classes : List String) :
    name ∉ classRemove name classes := by
  simp [classRemove]

theorem usersDocSet_lookup (st : IdentityStore) (docId : String) (data : JsObject)
    (h : st.firestoreOutage = none) :
    (usersDocSet st docId data).2.users.lookup docId = some data := by
  simp [usersDocSet, h, List.lookup]

theorem signupFormValid_checks (fields : SignupFields) (h : signupFormValid fields = true) :
    (fields.password != fields.confirmPassword) = false ∧
      ¬ jsLength fields.password < 6 ∧
      (fields.name == "" || fields.email == "" || fields.password == "" || fields.role == "")
        = false := by
  simp only [signupFormValid, Bool.and_eq_true, beq_iff_eq, decide_eq_true_eq, bne_iff_ne,
    ne_eq] at h
  obtain ⟨⟨⟨⟨⟨hpw, hlen⟩, hn⟩, he⟩, hp⟩, hr⟩ := h
  refine ⟨by simp [hpw], by omega, by simp [hn, he, hp, hr]⟩

theorem signupFormSubmit_mismatch (page : Page) (fields : SignupFields)
    (fetch : FetchRequest → FetchOutcome)
    (h : (fields.password != fields.confirmPassword) = true) :
    signupFormSubmit page fields fetch
      = (showError (hideMessages page) (JsVal.str "Passwords do not match!"), []) := by
  unfold signupFormSubmit
  simp only [h, if_true]

theorem signupFormSubmit_short (page : Page) (fields : SignupFields)
    (fetch : FetchRequest → FetchOutcome)
    (h1 : (fields.password != fields.confirmPassword) = false)
    (h2 : jsLength fields.password < 6) :
    signupFormSubmit page fields fetch
      = (showError (hideMessages page)
          (JsVal.str "Password must be at least 6 characters long."), []) := by
  unfold signupFormSubmit
  simp only [h1, h2, Bool.false_eq_true, if_false, if_true]

theorem signupFormSubmit_empty (page : Page) (fields : SignupFields)
    (fetch : FetchRequest → FetchOutcome)
    (h1 : (fields.password != fields.confirmPassword) = false)
    (h2 : ¬ jsLength fields.password < 6)
    (h3 : (fields.name == "" || fields.email == "" || fields.password == ""
      || fields.role == "") = true) :
    signupFormSubmit page fields fetch
      = (showError (hideMessages page) (JsVal.str "Please fill in all fields."), []) := by
  unfold signupFormSubmit
  simp only [h1, h2, h3, Bool.false_eq_true, if_false, if_true]

theorem signupFormSubmit_sent (page : Page) (fields : SignupFields)
    (fetch : FetchRequest → FetchOutcome)
    (h1 : (fields.password != fields.confirmPassword) = false)
    (h2 : ¬ jsLength fields.password < 6)
    (h3 : (fields.name == "" || fields.email == "" || fields.password == ""
      || fields.role == "") = false) :
    (signupFormSubmit page fields fetch).2
      = [⟨"/api/auth/signup", "POST",
          [("name", JsVal.str fields.name), ("email", JsVal.str fields.email),
            ("password", JsVal.str fields.password), ("role", JsVal.str fields.role)]⟩] := by
  unfold signupFormSubmit
  simp only [h1, h2, h3, Bool.false_eq_true, if_false]

theorem signupFormValid_false_of_mismatch (fields : SignupFields)
    (h : (fields.password != fields.confirmPassword) = true) :
    signupFormValid fields = false := by
  have hne : (fields.password == fields.confirmPassword) = false := by
    simpa [bne] using h
  simp [signupFormValid, hne]

theorem signupFormValid_false_of_short (fields : SignupFields)
    (h : jsLength fields.password < 6) : signupFormValid fields = false := by
  have hd : decide (6 ≤ jsLength fields.password) = false := by
    simp only [decide_eq_false_iff_not]
    omega
  simp [signupFormValid, hd]

theorem signupFormValid_false_of_empty (fields : SignupFields)
    (h : (fields.name == "" || fields.email == "" || fields.password == ""
      || fields.role == "") = true) : signupFormValid fields = false := by
  simp only [Bool.or_eq_true, beq_iff_eq] at h
  rcases h with ((h | h) | h) | h <;> simp [signupFormValid, h]

theorem signupFormValid_true (fields : SignupFields)
    (h1 : (fields.password != fields.confirmPassword) = false)
    (h2 : ¬ jsLength fields.password < 6)
    (h3 : (fields.name == "" || fields.email == "" || fields.password == ""
      || fields.role == "") = false) : signupFormValid fields = true := by
  have he : (fields.password == fields.confirmPassword) = true := by
    simpa [bne] using h1
  have hd : decide (6 ≤ jsLength fields.password) = true := by
    simp only [decide_eq_true_eq]
    omega
  simp only [Bool.or_eq_false_iff, beq_eq_false_iff_ne, ne_eq] at h3
  obtain ⟨⟨⟨hn, hem⟩, hp⟩, hr⟩ := h3
  simp [signupFormValid, he, hd, hn, hem, hp, hr]

theorem login_placeholder_cases (svc : AuthService) (st : IdentityStore) (now : Nat)
    (body : JsObject) :
    (login svc db st now body).response
        = ⟨400, "Email and password are required for login.", none, none, none, none⟩ ∨
      (∃ error, (login svc db st now body).response = loginCatch error) ∨
      (login svc db st now body).response
        = ⟨404, "User profile not found in database.", none, none, none, none⟩ := by
  by_cases he : (body.get "email").truthy = true
  · by_cases hp : (body.get "password").truthy = true
    · cases hu : getUserByEmail st (body.get "email") with
      | error e =>
        rw [login_lookup_failed svc db st now body e he hp hu]
        exact Or.inr (Or.inl ⟨e, rfl⟩)
      | ok userRecord =>
        rw [login_placeholder_found svc st now body userRecord he hp hu]
        exact Or.inr (Or.inr rfl)
    · rw [login_missing_field svc db st now body (Or.inr (by simpa using hp))]
      exact Or.inl rfl
  · rw [login_missing_field svc db st now body (Or.inl (by simpa using he))]
    exact Or.inl rfl

/-! ## Login -/

/-- C1: login issues a token only after successful credential verification.
On the `db` handle the controller imports, for every request and every state of
the Identity Store in which the supplied password is not the password of the
account with the supplied email, the response is not 200 and has no token. -/
theorem login_no_token_without_credentials (svc : AuthService) (st : IdentityStore)
    (now : Nat) (body : JsObject) :
    credentialsValid st (body.get "email") (body.get "password") = false →
      (login svc db st now body).response.status ≠ 200 ∧
        (login svc db st now body).response.token = none := by
  intro _
  rcases login_placeholder_cases svc st now body with h | ⟨e, h⟩ | h
  · simp [h]
  · rw [h]
    refine ⟨?_, loginCatch_token e⟩
    rcases loginCatch_status e with hs | hs <;> simp [hs]
  · simp [h]

/-- C1, witness: the account `a@x.com` has the password `secret1`; a login with
the password `wrong` gets no token. -/
theorem login_no_token_without_credentials_witness :
    credentialsValid memberStore (wrongPasswordBody.get "email")
        (wrongPasswordBody.get "password") = false ∧
      ((login sampleService db memberStore 100 wrongPasswordBody).response.status ≠ 200 ∧
        (login sampleService db memberStore 100 wrongPasswordBody).response.token = none) :=
  ⟨by decide,
    login_no_token_without_credentials sampleService memberStore 100 wrongPasswordBody
      (by decide)⟩

/-- C2 (as amended): for every existing account of a reachable store, login
with that account's email and any non-empty password, wrong or right, is
answered 404 "User profile not found in database." without a token, while
login with an email that has no account is answered by the catch block, with
status 401 or 500: the two responses differ. -/
theorem login_existing_account_profile_missing (svc : AuthService) (st : IdentityStore)
    (now : Nat) (em other : String) (pw pw2 : JsVal) (a : Account)
    (hreach : st.authOutage = none) (hacc : st.findByEmail em = some a)
    (hem : em ≠ "") (hpw : pw.truthy = true)
    (hother : st.findByEmail other = none) (hother0 : other ≠ "")
    (hpw2 : pw2.truthy = true) :
    (login svc db st now [("email", JsVal.str em), ("password", pw)]).response
        = ⟨404, "User profile not found in database.", none, none, none, none⟩ ∧
      (login svc db st now [("email", JsVal.str other), ("password", pw2)]).response
        = loginCatch st.userNotFound ∧
      (login svc db st now [("email", JsVal.str other), ("password", pw2)]).response.status
        ∈ [401, 500] ∧
      (login svc db st now [("email", JsVal.str other), ("password", pw2)]).response.message
        ∈ ["Invalid credentials. Please check your email and password.",
          "Login failed. Please try again later."] := by
  have hget : ∀ (e : String) (p : JsVal),
      JsObject.get [("email", JsVal.str e), ("password", p)] "email" = JsVal.str e ∧
        JsObject.get [("email", JsVal.str e), ("password", p)] "password" = p := by
    intro e p
    simp [JsObject.get, List.lookup]
  have hknown := login_placeholder_found svc st now
    [("email", JsVal.str em), ("password", pw)] ⟨a.uid⟩
    (by rw [(hget em pw).1]; exact (str_truthy em).2 hem)
    (by rw [(hget em pw).2]; exact hpw)
    (by rw [(hget em pw).1]; exact getUserByEmail_of_account st em a hreach hacc)
  have hunknown := login_lookup_failed svc db st now
    [("email", JsVal.str other), ("password", pw2)] st.userNotFound
    (by rw [(hget other pw2).1]; exact (str_truthy other).2 hother0)
    (by rw [(hget other pw2).2]; exact hpw2)
    (by rw [(hget other pw2).1]; exact getUserByEmail_of_no_account st other hreach hother)
  rw [hknown, hunknown]
  refine ⟨rfl, rfl, ?_, ?_⟩
  · rcases loginCatch_status st.userNotFound with hs | hs <;> simp [hs]
  · rcases loginCatch_message st.userNotFound with hm | hm <;> simp [hm]

/-- C2, witness: the account `a@x.com` and the unknown email `b@x.com`. -/
theorem login_existing_account_profile_missing_witness :
    memberStore.findByEmail "a@x.com" = some ⟨"u", "a@x.com", "secret1", "A"⟩ ∧
      memberStore.findByEmail "b@x.com" = none ∧
      ((login sampleService db memberStore 100
          [("email", JsVal.str "a@x.com"), ("password", JsVal.str "wrong")]).response
          = ⟨404, "User profile not found in database.", none, none, none, none⟩ ∧
        (login sampleService db memberStore 100
          [("email", JsVal.str "b@x.com"), ("password", JsVal.str "secret1")]).response
          = loginCatch memberStore.userNotFound ∧
        (login sampleService db memberStore 100
          [("email", JsVal.str "b@x.com"), ("password", JsVal.str "secret1")]).response.status
          ∈ [401, 500] ∧
        (login sampleService db memberStore 100
          [("email", JsVal.str "b@x.com"), ("password", JsVal.str "secret1")]).response.message
          ∈ ["Invalid credentials. Please check your email and password.",
            "Login failed. Please try again later."]) :=
  ⟨by decide, by decide,
    login_existing_account_profile_missing sampleService memberStore 100
      "a@x.com" "b@x.com" (JsVal.str "wrong") (JsVal.str "secret1")
      ⟨"u", "a@x.com", "secret1", "A"⟩
      rfl (by decide) (by decide) (by decide) (by decide) (by decide) (by decide)⟩

/-- C2, counterexample: `a@x.com` has an account and `wrong` is not its
password, `b@x.com` has no account; the first login is answered 404 "User
profile not found in database.", the second 500 "Login failed. Please try
again later.". -/
theorem login_wrong_password_differs_from_unknown_email :
    credentialsValid memberStore (JsVal.str "a@x.com") (JsVal.str "wrong") = false ∧
      memberStore.findByEmail "b@x.com" = none ∧
      (login sampleService db memberStore 100 wrongPasswordBody).response.status = 404 ∧
      (login sampleService db memberStore 100 wrongPasswordBody).response.message
        = "User profile not found in database." ∧
      (login sampleService db memberStore 100 unknownEmailBody).response.status = 500 ∧
      (login sampleService db memberStore 100 unknownEmailBody).response.message
        = "Login failed. Please try again later." := by
  decide

/-- C3, failing input: `b@x.com` has no account, and the lookup fails with the
not-found error of the Admin SDK, whose message does not contain
`auth/user-not-found`; login answers 500 and echoes the message, not the
generic 401. -/
theorem login_unknown_email_answers_500 :
    memberStore.findByEmail "b@x.com" = none ∧
      getUserByEmail memberStore (unknownEmailBody.get "email")
        = .error ⟨"There is no user record corresponding to the provided identifier."⟩ ∧
      (login sampleService db memberStore 100 unknownEmailBody).response
        = ⟨500, "Login failed. Please try again later.", none, none, none,
            some "There is no user record corresponding to the provided identifier."⟩ :=
  ⟨by decide, rfl, by decide⟩

/-- C4, failing input: `a@x.com` signs up as a member, so the account exists
and its role is stored in `users/u`; the login that follows is answered 404,
because the handler reads the profile through the placeholder `db`. -/
theorem login_after_signup_answers_404 :
    (signup sampleService emptyStore 100 signupBody).response.status = 201 ∧
      (signup sampleService emptyStore 100 signupBody).response.uid = some "u" ∧
      ((signup sampleService emptyStore 100 signupBody).store.users.lookup "u").map
          (fun data => data.get "role") = some (JsVal.str "member") ∧
      (login sampleService db (signup sampleService emptyStore 100 signupBody).store 100
          [("email", JsVal.str "a@x.com"), ("password", JsVal.str "secret1")]).response
        = ⟨404, "User profile not found in database.", none, none, none, none⟩ := by
  decide

/-- C5: for a login request body whose email and password are strings or
absent, login responds 400 if and only if email or password is missing or the
empty string; in that case no call is made to the Identity Store and no token
is issued. -/
theorem login_400_iff_missing (svc : AuthService) (db : Db) (st : IdentityStore)
    (now : Nat) (body : JsObject)
    (he : (body.get "email").isStringOrAbsent = true)
    (hp : (body.get "password").isStringOrAbsent = true) :
    ((login svc db st now body).response.status = 400 ↔
        (body.get "email" = JsVal.undefined ∨ body.get "email" = JsVal.str "" ∨
          body.get "password" = JsVal.undefined ∨ body.get "password" = JsVal.str "")) ∧
      ((login svc db st now body).response.status = 400 →
        (login svc db st now body).calls = [] ∧
          (login svc db st now body).response.token = none ∧
          (login svc db st now body).store = st) := by
  have key : (login svc db st now body).response.status = 400 ↔
      ((body.get "email").truthy = false ∨ (body.get "password").truthy = false) := by
    constructor
    · exact login_status_400 svc db st now body
    · intro h
      rw [login_missing_field svc db st now body h]
  constructor
  · rw [key, truthy_false_iff_missing _ he, truthy_false_iff_missing _ hp]
    tauto
  · intro h
    rw [login_missing_field svc db st now body (key.1 h)]
    exact ⟨rfl, rfl, rfl⟩

/-- C5, witness: a body without a password. -/
theorem login_400_iff_missing_witness :
    (JsObject.get [("email", JsVal.str "a@x.com")] "password").isStringOrAbsent = true ∧
      (login sampleService db memberStore 100 [("email", JsVal.str "a@x.com")]).response.status
        = 400 ∧
      (login sampleService db memberStore 100 [("email", JsVal.str "a@x.com")]).calls = [] :=
  ⟨by decide, by decide,
    ((login_400_iff_missing sampleService db memberStore 100 [("email", JsVal.str "a@x.com")]
      (by decide) (by decide)).2 (by decide)).1⟩

/-! ## Signup -/

/-- C6: for a signup request body whose four fields are strings or absent,
signup responds 400 if and only if at least one of email, password, name, role
is missing or the empty string; in that case `registerUser` is not called (no
call reaches the Identity Store, which is unchanged) and no token is issued. -/
theorem signup_400_iff_missing (svc : AuthService) (st : IdentityStore) (now : Nat)
    (body : JsObject)
    (he : (body.get "email").isStringOrAbsent = true)
    (hp : (body.get "password").isStringOrAbsent = true)
    (hn : (body.get "name").isStringOrAbsent = true)
    (hr : (body.get "role").isStringOrAbsent = true) :
    ((signup svc st now body).response.status = 400 ↔
        ((body.get "email" = JsVal.undefined ∨ body.get "email" = JsVal.str "") ∨
          (body.get "password" = JsVal.undefined ∨ body.get "password" = JsVal.str "") ∨
          (body.get "name" = JsVal.undefined ∨ body.get "name" = JsVal.str "") ∨
          (body.get "role" = JsVal.undefined ∨ body.get "role" = JsVal.str ""))) ∧
      ((signup svc st now body).response.status = 400 →
        (signup svc st now body).calls = [] ∧
          (signup svc st now body).store = st ∧
          (signup svc st now body).response.token = none) := by
  have key : (signup svc st now body).response.status = 400 ↔
      ((body.get "email").truthy = false ∨ (body.get "password").truthy = false ∨
        (body.get "name").truthy = false ∨ (body.get "role").truthy = false) := by
    constructor
    · exact signup_status_400 svc st now body
    · intro h
      rw [signup_missing_field svc st now body h]
  constructor
  · rw [key, truthy_false_iff_missing _ he, truthy_false_iff_missing _ hp,
      truthy_false_iff_missing _ hn, truthy_false_iff_missing _ hr]
  · intro h
    rw [signup_missing_field svc st now body (key.1 h)]
    exact ⟨rfl, rfl, rfl⟩

/-- C6, witness: a signup body with an empty name. -/
theorem signup_400_iff_missing_witness :
    (signup sampleService emptyStore 100
        [("email", JsVal.str "a@x.com"), ("password", JsVal.str "secret1"),
          ("name", JsVal.str ""), ("role", JsVal.str "member")]).response.status = 400 ∧
      ((signup sampleService emptyStore 100
          [("email", JsVal.str "a@x.com"), ("password", JsVal.str "secret1"),
            ("name", JsVal.str ""), ("role", JsVal.str "member")]).calls = [] ∧
        (signup sampleService emptyStore 100
          [("email", JsVal.str "a@x.com"), ("password", JsVal.str "secret1"),
            ("name", JsVal.str ""), ("role", JsVal.str "member")]).store = emptyStore ∧
        (signup sampleService emptyStore 100
          [("email", JsVal.str "a@x.com"), ("password", JsVal.str "secret1"),
            ("name", JsVal.str ""), ("role", JsVal.str "member")]).response.token = none) :=
  ⟨by decide,
    (signup_400_iff_missing sampleService emptyStore 100
      [("email", JsVal.str "a@x.com"), ("password", JsVal.str "secret1"),
        ("name", JsVal.str ""), ("role", JsVal.str "member")]
      (by decide) (by decide) (by decide) (by decide)).2 (by decide)⟩

/-- C7: for a signup request with four non-empty string fields and an email not
yet in a reachable Identity Store, signup responds 201 with the non-empty uid
the store assigned in `createUser`, the role of the request, and a token that
`verifyAuthToken` decodes to claims with that uid and that role. -/
theorem signup_fresh_email_created (svc : AuthService) (st : IdentityStore) (now : Nat)
    (body : JsObject) (em pw nm rl : String)
    (hem : body.get "email" = JsVal.str em) (hpw : body.get "password" = JsVal.str pw)
    (hnm : body.get "name" = JsVal.str nm) (hrl : body.get "role" = JsVal.str rl)
    (hem0 : em ≠ "") (hpw0 : pw ≠ "") (hnm0 : nm ≠ "") (hrl0 : rl ≠ "")
    (hreach : st.authOutage = none) (hfs : st.firestoreOutage = none)
    (hfresh : st.findByEmail em = none) :
    ∃ uid token claims,
      (createUser st (JsVal.str em) (JsVal.str pw) (JsVal.str nm)).1 = .ok ⟨uid⟩ ∧
      uid ≠ "" ∧
      (signup svc st now body).response.status = 201 ∧
      (signup svc st now body).response.uid = some uid ∧
      (signup svc st now body).response.role = some (JsVal.str rl) ∧
      (signup svc st now body).response.token = some token ∧
      verifyAuthToken svc now (JwtArg.compact token) = some claims ∧
      claims.uid = JsVal.str uid ∧ claims.role = JsVal.str rl := by
  have hsign : signup svc st now body = _ :=
    signup_all_fields svc st now body (by rw [hem]; exact (str_truthy em).2 hem0)
      (by rw [hpw]; exact (str_truthy pw).2 hpw0) (by rw [hnm]; exact (str_truthy nm).2 hnm0)
      (by rw [hrl]; exact (str_truthy rl).2 hrl0)
  rw [hem, hpw, hnm, hrl, registerUser_fresh st em pw nm (JsVal.str rl) hreach hfs hfresh]
    at hsign
  refine ⟨freshUid st.accounts,
    generateAuthToken svc now (JsVal.str (freshUid st.accounts)) (JsVal.str rl),
    ⟨JsVal.str (freshUid st.accounts), JsVal.str rl, some now, some (now + 3600)⟩,
    ?_, freshUid_ne_empty st.accounts, ?_, ?_, ?_, ?_,
    verifyAuthToken_generateAuthToken svc now _ _, rfl, rfl⟩
  · simp [createUser, hreach, hfresh]
  all_goals rw [hsign]

/-- C7, witness: the spec's scenario on the empty store. -/
theorem signup_fresh_email_created_witness :
    emptyStore.findByEmail "a@x.com" = none ∧
      ∃ uid token claims,
        (createUser emptyStore (JsVal.str "a@x.com") (JsVal.str "secret1") (JsVal.str "A")).1
          = .ok ⟨uid⟩ ∧
        uid ≠ "" ∧
        (signup sampleService emptyStore 100 signupBody).response.status = 201 ∧
        (signup sampleService emptyStore 100 signupBody).response.uid = some uid ∧
        (signup sampleService emptyStore 100 signupBody).response.role
          = some (JsVal.str "member") ∧
        (signup sampleService emptyStore 100 signupBody).response.token = some token ∧
        verifyAuthToken sampleService 100 (JwtArg.compact token) = some claims ∧
        claims.uid = JsVal.str uid ∧ claims.role = JsVal.str "member" :=
  ⟨by decide,
    signup_fresh_email_created sampleService emptyStore 100 signupBody
      "a@x.com" "secret1" "A" "member" (by decide) (by decide) (by decide) (by decide)
      (by decide) (by decide) (by decide) (by decide) rfl rfl (by decide)⟩

/-- C8, failing input: `a@x.com` already has an account and `createUser` fails
with the email-in-use error of the Admin SDK, whose message does not contain
`auth/email-already-in-use`; `registerUser` rethrows the message and signup
answers 500, not 409. -/
theorem signup_email_in_use_answers_500 :
    memberStore.findByEmail "a@x.com" = some ⟨"u", "a@x.com", "secret1", "A"⟩ ∧
      (registerUser memberStore (JsVal.str "a@x.com") (JsVal.str "secret1") (JsVal.str "A")
          (JsVal.str "member")).1
        = .error ⟨"The email address is already in use by another account."⟩ ∧
      (signup sampleService memberStore 100 signupBody).response
        = ⟨500, "Failed to register user. Please try again.", none, none, none,
            some "The email address is already in use by another account."⟩ :=
  ⟨by decide, rfl, by decide⟩

/-- C9: for string arguments with an email that has no account in a reachable
store, the first `registerUser` call succeeds, and a second `registerUser` call
with the same email (whatever password, name and role) fails with the store's
email-in-use error and creates nothing: the store after the second call equals
the store after the first. -/
theorem registerUser_twice_conflict (st : IdentityStore) (em pw nm : String) (role : JsVal)
    (hreach : st.authOutage = none) (hfs : st.firestoreOutage = none)
    (hfresh : st.findByEmail em = none) :
    ∃ newUser,
      (registerUser st (JsVal.str em) (JsVal.str pw) (JsVal.str nm) role).1 = .ok newUser ∧
      ∀ (pw2 nm2 : String) (role2 : JsVal),
        (registerUser (registerUser st (JsVal.str em) (JsVal.str pw) (JsVal.str nm) role).2.1
            (JsVal.str em) (JsVal.str pw2) (JsVal.str nm2) role2).1
          = .error ⟨st.emailInUse.message⟩ ∧
        (registerUser (registerUser st (JsVal.str em) (JsVal.str pw) (JsVal.str nm) role).2.1
            (JsVal.str em) (JsVal.str pw2) (JsVal.str nm2) role2).2.1
          = (registerUser st (JsVal.str em) (JsVal.str pw) (JsVal.str nm) role).2.1 := by
  rw [registerUser_fresh st em pw nm role hreach hfs hfresh]
  refine ⟨⟨freshUid st.accounts, role⟩, rfl, ?_⟩
  intro pw2 nm2 role2
  have hfound := findByEmail_after_create st em pw nm (freshUid st.accounts)
    ((freshUid st.accounts,
        [("name", JsVal.str nm), ("email", JsVal.str em), ("role", role),
          ("createdAt", JsVal.num st.clock)])
      :: st.users.filter (fun d => d.1 != freshUid st.accounts)) hfresh
  have hsecond := registerUser_in_use
    { st with
      accounts := st.accounts ++ [⟨freshUid st.accounts, em, pw, nm⟩],
      users := (freshUid st.accounts,
          [("name", JsVal.str nm), ("email", JsVal.str em), ("role", role),
            ("createdAt", JsVal.num st.clock)])
        :: st.users.filter (fun d => d.1 != freshUid st.accounts) }
    em pw2 nm2 role2 _ hreach hfound
  dsimp only at hsecond ⊢
  rw [hsecond]
  exact ⟨rfl, rfl⟩

/-- C9, witness: registering `a@x.com` twice on the empty store. -/
theorem registerUser_twice_conflict_witness :
    emptyStore.findByEmail "a@x.com" = none ∧
      ∃ newUser,
        (registerUser emptyStore (JsVal.str "a@x.com") (JsVal.str "secret1") (JsVal.str "A")
          (JsVal.str "member")).1 = .ok newUser ∧
        ∀ (pw2 nm2 : String) (role2 : JsVal),
          (registerUser (registerUser emptyStore (JsVal.str "a@x.com") (JsVal.str "secret1")
              (JsVal.str "A") (JsVal.str "member")).2.1
              (JsVal.str "a@x.com") (JsVal.str pw2) (JsVal.str nm2) role2).1
            = .error ⟨emptyStore.emailInUse.message⟩ ∧
          (registerUser (registerUser emptyStore (JsVal.str "a@x.com") (JsVal.str "secret1")
              (JsVal.str "A") (JsVal.str "member")).2.1
              (JsVal.str "a@x.com") (JsVal.str pw2) (JsVal.str nm2) role2).2.1
            = (registerUser emptyStore (JsVal.str "a@x.com") (JsVal.str "secret1")
              (JsVal.str "A") (JsVal.str "member")).2.1 :=
  ⟨by decide,
    registerUser_twice_conflict emptyStore "a@x.com" "secret1" "A" (JsVal.str "member")
      rfl rfl (by decide)⟩

/-- C10: for a signup request with four non-empty fields, if `registerUser`
fails and the failure is not an email-in-use error (its message does not carry
`auth/email-already-in-use`, as when the store is unreachable), signup responds
500 and not 201, with the fixed failure message and without a token. -/
theorem signup_store_failure_500 (svc : AuthService) (st : IdentityStore) (now : Nat)
    (body : JsObject) (error : JsError)
    (he : (body.get "email").truthy = true) (hp : (body.get "password").truthy = true)
    (hn : (body.get "name").truthy = true) (hr : (body.get "role").truthy = true)
    (hfail : (registerUser st (body.get "email") (body.get "password") (body.get "name")
      (body.get "role")).1 = .error error)
    (hother : jsIncludes error.message "auth/email-already-in-use" = false) :
    (signup svc st now body).response.status = 500 ∧
      (signup svc st now body).response.status ≠ 201 ∧
      (signup svc st now body).response.message = "Failed to register user. Please try again." ∧
      (signup svc st now body).response.uid = none ∧
      (signup svc st now body).response.token = none := by
  rw [signup_all_fields svc st now body he hp hn hr]
  rcases hreg : registerUser st (body.get "email") (body.get "password") (body.get "name")
      (body.get "role") with ⟨res, st1, calls⟩
  rw [hreg] at hfail
  simp only at hfail
  subst hfail
  simp [signupCatch_of_not_includes error hother]

/-- C10, witness: the spec's signup against a store that refuses connections. -/
theorem signup_store_failure_500_witness :
    unreachableStore.authOutage = some ⟨"connect ECONNREFUSED"⟩ ∧
      ((signup sampleService unreachableStore 100 signupBody).response.status = 500 ∧
        (signup sampleService unreachableStore 100 signupBody).response.status ≠ 201 ∧
        (signup sampleService unreachableStore 100 signupBody).response.message
          = "Failed to register user. Please try again." ∧
        (signup sampleService unreachableStore 100 signupBody).response.uid = none ∧
        (signup sampleService unreachableStore 100 signupBody).response.token = none) :=
  ⟨rfl,
    signup_store_failure_500 sampleService unreachableStore 100 signupBody
      ⟨"connect ECONNREFUSED"⟩ (by decide) (by decide) (by decide) (by decide) rfl
      (by decide)⟩

/-! ## Error detail in responses -/

/-- C11 (as amended): every response of login and signup carries one of the
fixed messages of the handler, and an `error` field occurs only in a 500
response, where it holds the message text of the upstream error unchanged; the
400, 401, 404, 409, 200 and 201 responses carry no upstream text. -/
theorem error_detail_only_in_500 (svc : AuthService) (db : Db) (st : IdentityStore)
    (now : Nat) (body : JsObject) :
    ((login svc db st now body).response.message ∈
        ["Email and password are required for login.",
          "Invalid credentials. Please check your email and password.",
          "Login failed. Please try again later.",
          "User profile not found in database.", "Login successful!"]) ∧
      ((login svc db st now body).response.error = none ∨
        (login svc db st now body).response.status = 500) ∧
      ((signup svc st now body).response.message ∈
        ["All fields (email, password, name, role) are required for signup.",
          "Email is already in use. Please use a different email or login.",
          "Failed to register user. Please try again.", "User registered successfully!"]) ∧
      ((signup svc st now body).response.error = none ∨
        (signup svc st now body).response.status = 500) ∧
      (∀ error : JsError, (loginCatch error).error
        = if (loginCatch error).status = 500 then some error.message else none) ∧
      (∀ error : JsError, (signupCatch error).error
        = if (signupCatch error).status = 500 then some error.message else none) := by
  refine ⟨?_, ?_, ?_, ?_, loginCatch_error_field, signupCatch_error_field⟩
  · rcases login_response_cases svc db st now body with h | ⟨e, h⟩ | h | ⟨uid, role, h⟩
    · simp [h]
    · rw [h]
      rcases loginCatch_message e with hm | hm <;> simp [hm]
    · simp [h]
    · simp [h]
  · rcases login_response_cases svc db st now body with h | ⟨e, h⟩ | h | ⟨uid, role, h⟩
    · simp [h]
    · rw [h, loginCatch_error_field e]
      by_cases hs : (loginCatch e).status = 500
      · exact Or.inr hs
      · simp [hs]
    · simp [h]
    · simp [h]
  · rcases signup_response_cases svc st now body with h | ⟨e, h⟩ | ⟨uid, role, h⟩
    · simp [h]
    · rw [h]
      rcases signupCatch_message e with hm | hm <;> simp [hm]
    · simp [h]
  · rcases signup_response_cases svc st now body with h | ⟨e, h⟩ | ⟨uid, role, h⟩
    · simp [h]
    · rw [h, signupCatch_error_field e]
      by_cases hs : (signupCatch e).status = 500
      · exact Or.inr hs
      · simp [hs]
    · simp [h]

/-- C11, counterexample: with the store refusing connections, the response of
signup carries the text of the upstream error, `connect ECONNREFUSED`, in its
`error` field, and so does the response of login. -/
theorem signup_response_echoes_upstream_error :
    unreachableStore.authOutage = some ⟨"connect ECONNREFUSED"⟩ ∧
      (signup sampleService unreachableStore 100 signupBody).response.error
        = some "connect ECONNREFUSED" ∧
      (login sampleService db unreachableStore 100 wrongPasswordBody).response.error
        = some "connect ECONNREFUSED" := by
  decide

/-! ## Session tokens -/

/-- C12: token round trip. For every uid string and role string,
`verifyAuthToken(generateAuthToken(uid, role))`, evaluated at the time of
issuance under the same module secret, returns a claim object (not `null`)
whose uid is `uid` and whose role is `role`. -/
theorem token_round_trip (svc : AuthService) (now : Nat) (uid role : String) :
    ∃ claims,
      verifyAuthToken svc now
          (JwtArg.compact (generateAuthToken svc now (JsVal.str uid) (JsVal.str role)))
        = some claims ∧
      claims.uid = JsVal.str uid ∧ claims.role = JsVal.str role := by
  refine ⟨⟨JsVal.str uid, JsVal.str role, some now, some (now + 3600)⟩, ?_, rfl, rfl⟩
  have hne := svc.hmac.mac_ne JwtAlg.HS256 svc.jwtSecret
    ⟨JsVal.str uid, JsVal.str role, some now, some (now + 3600)⟩
  unfold verifyAuthToken generateAuthToken jwtSign jwtVerify
  simp [hne]

/-- C13: every token `generateAuthToken` produces at time `now` carries
`iat = now` and `exp = now + 3600` (one hour, in seconds), whatever the uid and
the role. -/
theorem token_lifetime_one_hour (svc : AuthService) (now : Nat) (uid role : JsVal) :
    (generateAuthToken svc now uid role).payload.iat = some now ∧
      (generateAuthToken svc now uid role).payload.exp = some (now + 3600) ∧
      (generateAuthToken svc now uid role).payload.uid = uid ∧
      (generateAuthToken svc now uid role).payload.role = role := by
  unfold generateAuthToken jwtSign
  exact ⟨rfl, rfl, rfl, rfl⟩

/-- C14 (as amended): a token issued by `generateAuthToken` at time `issued`
has expiry `e = issued + 3600`; `verifyAuthToken` at time `later` fails, as
expired, if `later >= e` and returns the claim set if `later < e`. -/
theorem token_expiry (svc : AuthService) (issued later : Nat) (uid role : JsVal) :
    (generateAuthToken svc issued uid role).payload.exp = some (issued + 3600) ∧
      jwtVerify svc.hmac (JwtArg.compact (generateAuthToken svc issued uid role))
          svc.jwtSecret later
        = (if later ≥ issued + 3600 then .error JwtError.expired
          else .ok ⟨uid, role, some issued, some (issued + 3600)⟩) ∧
      verifyAuthToken svc later (JwtArg.compact (generateAuthToken svc issued uid role))
        = (if later ≥ issued + 3600 then none
          else some ⟨uid, role, some issued, some (issued + 3600)⟩) := by
  refine ⟨rfl, jwtVerify_generateAuthToken svc issued later uid role, ?_⟩
  unfold verifyAuthToken
  rw [jwtVerify_generateAuthToken svc issued later uid role]
  by_cases h : later ≥ issued + 3600
  · simp [h]
  · simp [h]

/-- C14, counterexample: a token issued at time 100 has expiry 3700; verified
at time 3700, which is not after the expiry, it is rejected as expired, while
one second earlier it is accepted. -/
theorem token_rejected_at_expiry :
    (generateAuthToken sampleService 100 (JsVal.str "u") (JsVal.str "member")).payload.exp
        = some 3700 ∧
      verifyAuthToken sampleService 3700
        (JwtArg.compact (generateAuthToken sampleService 100 (JsVal.str "u")
          (JsVal.str "member"))) = none ∧
      verifyAuthToken sampleService 3699
        (JwtArg.compact (generateAuthToken sampleService 100 (JsVal.str "u")
          (JsVal.str "member")))
        = some ⟨JsVal.str "u", JsVal.str "member", some 100, some 3700⟩ := by
  decide

/-- C15 (as amended): for a token issued by `generateAuthToken`, changing
character `i` of its signature segment makes `verifyAuthToken` return no claim
set. In a module loaded with another secret the token is verified exactly as
in the signing module when the MAC of the token under that secret equals its
signature, and rejected otherwise; a secret that HMAC prepares to the same key
as the signing secret verifies the token although it is a different secret. -/
theorem tampered_token_rejected (svc : AuthService) (issued later : Nat)
    (uid role : JsVal) (i : Nat) (c : Char) (secret2 : String) (hset : secret2 ≠ "")
    (hi : i < (generateAuthToken svc issued uid role).signature.data.length)
    (hc : (generateAuthToken svc issued uid role).signature.data.get ⟨i, hi⟩ ≠ c) :
    verifyAuthToken svc later
        (JwtArg.compact (tamperSignature (generateAuthToken svc issued uid role) i c)) = none ∧
      verifyAuthToken ⟨svc.hmac, secret2, hset⟩ later
          (JwtArg.compact (generateAuthToken svc issued uid role))
        = (if svc.hmac.mac JwtAlg.HS256 secret2 (generateAuthToken svc issued uid role).payload
              = (generateAuthToken svc issued uid role).signature then
            verifyAuthToken svc later (JwtArg.compact (generateAuthToken svc issued uid role))
          else none) ∧
      (hmacKey JwtAlg.HS256 secret2 = hmacKey JwtAlg.HS256 svc.jwtSecret →
        verifyAuthToken ⟨svc.hmac, secret2, hset⟩ later
            (JwtArg.compact (generateAuthToken svc issued uid role))
          = verifyAuthToken svc later
            (JwtArg.compact (generateAuthToken svc issued uid role))) := by
  have hne := svc.hmac.mac_ne JwtAlg.HS256 svc.jwtSecret
    ⟨uid, role, some issued, some (issued + 3600)⟩
  have hsplit : verifyAuthToken ⟨svc.hmac, secret2, hset⟩ later
        (JwtArg.compact (generateAuthToken svc issued uid role))
      = (if svc.hmac.mac JwtAlg.HS256 secret2 (generateAuthToken svc issued uid role).payload
            = (generateAuthToken svc issued uid role).signature then
          verifyAuthToken svc later (JwtArg.compact (generateAuthToken svc issued uid role))
        else none) := by
    unfold verifyAuthToken jwtVerify
    simp only [generateAuthToken, jwtSign]
    by_cases hm : svc.hmac.mac JwtAlg.HS256 secret2
        ⟨uid, role, some issued, some (issued + 3600)⟩
        = svc.hmac.mac JwtAlg.HS256 svc.jwtSecret ⟨uid, role, some issued, some (issued + 3600)⟩
    · simp [hne, hm]
    · simp [hne, hm, Ne.symm hm]
  refine ⟨?_, hsplit, ?_⟩
  · have hdiff : String.mk ((generateAuthToken svc issued uid role).signature.data.set i c)
        ≠ (generateAuthToken svc issued uid role).signature := by
      intro h
      exact set_ne_of_ne _ i c hi hc (congrArg String.data h)
    unfold verifyAuthToken jwtVerify tamperSignature
    simp only [generateAuthToken, jwtSign] at hdiff ⊢
    by_cases h0 : String.mk ((svc.hmac.mac JwtAlg.HS256 svc.jwtSecret
        ⟨uid, role, some issued, some (issued + 3600)⟩).data.set i c) = ""
    · simp [h0]
    · simp [h0, hdiff]
  · intro hkey
    rw [hsplit]
    have hmac := svc.hmac.mac_key JwtAlg.HS256 secret2 svc.jwtSecret
      (generateAuthToken svc issued uid role).payload hkey
    rw [if_pos]
    rw [hmac]
    rfl

/-- C15, witness: the sample token with the first character of its signature
changed to `x`, and the module loaded with the secret `other`. -/
theorem tampered_token_rejected_witness :
    verifyAuthToken sampleService 100
        (JwtArg.compact (tamperSignature
          (generateAuthToken sampleService 100 (JsVal.str "u") (JsVal.str "member")) 0 'x'))
        = none ∧
      verifyAuthToken otherService 100
          (JwtArg.compact (generateAuthToken sampleService 100 (JsVal.str "u")
            (JsVal.str "member"))) = none :=
  ⟨(tampered_token_rejected sampleService 100 100 (JsVal.str "u") (JsVal.str "member")
      0 'x' "other" (by decide) (by decide) (by decide)).1,
    by decide⟩

/-- C15, counterexample: the secret `s3cret` followed by a NUL character is
different from the secret `s3cret`, HMAC prepares both to the same key, and the
module loaded with it accepts the token signed with `s3cret`. -/
theorem padded_secret_verifies_token :
    paddedSecretService.jwtSecret ≠ sampleService.jwtSecret ∧
      hmacKey JwtAlg.HS256 paddedSecretService.jwtSecret
        = hmacKey JwtAlg.HS256 sampleService.jwtSecret ∧
      verifyAuthToken paddedSecretService 100
          (JwtArg.compact (generateAuthToken sampleService 100 (JsVal.str "u")
            (JsVal.str "member")))
        = some ⟨JsVal.str "u", JsVal.str "member", some 100, some 3700⟩ := by
  decide

/-- C16: `verifyAuthToken` is total: for every argument it returns the payload
when the token is valid and `null` (`none`) otherwise, in particular for an
argument that is not a string and for a malformed string; no error escapes. -/
theorem verifyAuthToken_total (svc : AuthService) (now : Nat) (token : JwtArg) :
    verifyAuthToken svc now token
        = (if tokenValid svc now token = true then token.payload else none) ∧
      (∀ v, verifyAuthToken svc now (JwtArg.notString v) = none) ∧
      (∀ text, verifyAuthToken svc now (JwtArg.malformed text) = none) := by
  refine ⟨?_, fun _ => rfl, fun _ => rfl⟩
  cases token with
  | notString v => rfl
  | malformed text => rfl
  | compact t =>
    have hne := svc.hmac.mac_ne t.alg svc.jwtSecret t.payload
    unfold verifyAuthToken jwtVerify tokenValid JwtArg.payload
    by_cases hsig : t.signature = svc.hmac.mac t.alg svc.jwtSecret t.payload
    · by_cases halg : t.alg = JwtAlg.unsecured
      · rw [halg] at hne
        simp [hsig, hne, halg]
      · cases hexp : t.payload.exp with
        | none => simp [hsig, hne, halg, hexp]
        | some e =>
          by_cases hlt : now < e
          · simp [hsig, hne, halg, hexp, hlt, Nat.not_le.mpr hlt]
          · simp [hsig, hne, halg, hexp, hlt, Nat.not_lt.mp hlt]
    · by_cases h0 : t.signature = ""
      · simp [h0, Ne.symm hne]
      · by_cases halg : t.alg = JwtAlg.unsecured
        · simp [hsig, h0, halg]
        · simp [hsig, h0, halg]

/-! ## Startup -/

/-- C17: startup fails fast. In every environment in which `JWT_SECRET` is
unset or empty, loading `authService` ends the process with the non-zero exit
code 1; the boot sequence of `server.js` ends with that exit and contains no
`app.listen`, and no service module (the only holder of a signing secret)
comes into being. -/
theorem startup_fails_fast_without_secret (hmac : Hmac) (env : Env)
    (h : env.lookup "JWT_SECRET" = none ∨ env.lookup "JWT_SECRET" = some "") :
    ∃ code, code ≠ 0 ∧
      loadAuthService hmac env = .error code ∧
      (serverBoot hmac env).getLast? = some (BootStep.processExit code) ∧
      (serverBoot hmac env).any BootStep.isListen = false ∧
      ∀ svc, loadAuthService hmac env ≠ .ok svc := by
  have hload : loadAuthService hmac env = .error 1 := by
    unfold loadAuthService
    rcases h with h | h <;> simp [h]
  refine ⟨1, by decide, hload, ?_, ?_, ?_⟩
  · simp [serverBoot, hload]
  · simp [serverBoot, hload, BootStep.isListen]
  · intro svc hsvc
    rw [hload] at hsvc
    cases hsvc

/-- C17, witness: an environment without the variable. -/
theorem startup_fails_fast_without_secret_witness :
    envWithoutSecret.lookup "JWT_SECRET" = none ∧
      ∃ code, code ≠ 0 ∧
        loadAuthService sampleHmac envWithoutSecret = .error code ∧
        (serverBoot sampleHmac envWithoutSecret).getLast? = some (BootStep.processExit code) ∧
        (serverBoot sampleHmac envWithoutSecret).any BootStep.isListen = false ∧
        ∀ svc, loadAuthService sampleHmac envWithoutSecret ≠ .ok svc :=
  ⟨by decide, startup_fails_fast_without_secret sampleHmac envWithoutSecret (Or.inl (by decide))⟩

/-! ## What `registerUser` writes -/

/-- C18 (as amended): on success (string arguments, fresh email, reachable
store) `registerUser` creates exactly one account, under a fresh non-empty id,
handing the store the email, the password as supplied and the name, and writes
exactly one profile document keyed by that id, holding the name, the email,
the role and a creation timestamp and neither a password nor a verifier; it
returns that id with the supplied role. -/
theorem registerUser_success_effect (st : IdentityStore) (em pw nm : String) (role : JsVal)
    (hreach : st.authOutage = none) (hfs : st.firestoreOutage = none)
    (hfresh : st.findByEmail em = none) :
    ∃ uid, uid ≠ "" ∧ (∀ a ∈ st.accounts, a.uid ≠ uid) ∧
      (registerUser st (JsVal.str em) (JsVal.str pw) (JsVal.str nm) role).1
        = .ok ⟨uid, role⟩ ∧
      (registerUser st (JsVal.str em) (JsVal.str pw) (JsVal.str nm) role).2.1.accounts
        = st.accounts ++ [⟨uid, em, pw, nm⟩] ∧
      (registerUser st (JsVal.str em) (JsVal.str pw) (JsVal.str nm) role).2.1.users
        = (uid, [("name", JsVal.str nm), ("email", JsVal.str em), ("role", role),
            ("createdAt", JsVal.num st.clock)])
          :: st.users.filter (fun d => d.1 != uid) ∧
      (registerUser st (JsVal.str em) (JsVal.str pw) (JsVal.str nm) role).2.2
        = [StoreCall.createUser (JsVal.str em) (JsVal.str pw) (JsVal.str nm),
            StoreCall.docSet "users" uid
              [("name", JsVal.str nm), ("email", JsVal.str em), ("role", role),
                ("createdAt", JsVal.num st.clock)]] := by
  refine ⟨freshUid st.accounts, freshUid_ne_empty st.accounts,
    fun a ha => freshUid_fresh st.accounts a ha, ?_, ?_, ?_, ?_⟩
  all_goals rw [registerUser_fresh st em pw nm role hreach hfs hfresh]

/-- C18, witness: registering `a@x.com` on the empty store. -/
theorem registerUser_success_effect_witness :
    emptyStore.findByEmail "a@x.com" = none ∧
      ∃ uid, uid ≠ "" ∧ (∀ a ∈ emptyStore.accounts, a.uid ≠ uid) ∧
        (registerUser emptyStore (JsVal.str "a@x.com") (JsVal.str "secret1") (JsVal.str "A")
          (JsVal.str "member")).1 = .ok ⟨uid, JsVal.str "member"⟩ ∧
        (registerUser emptyStore (JsVal.str "a@x.com") (JsVal.str "secret1") (JsVal.str "A")
          (JsVal.str "member")).2.1.accounts
          = emptyStore.accounts ++ [⟨uid, "a@x.com", "secret1", "A"⟩] ∧
        (registerUser emptyStore (JsVal.str "a@x.com") (JsVal.str "secret1") (JsVal.str "A")
          (JsVal.str "member")).2.1.users
          = (uid, [("name", JsVal.str "A"), ("email", JsVal.str "a@x.com"),
              ("role", JsVal.str "member"), ("createdAt", JsVal.num emptyStore.clock)])
            :: emptyStore.users.filter (fun d => d.1 != uid) ∧
        (registerUser emptyStore (JsVal.str "a@x.com") (JsVal.str "secret1") (JsVal.str "A")
          (JsVal.str "member")).2.2
          = [StoreCall.createUser (JsVal.str "a@x.com") (JsVal.str "secret1") (JsVal.str "A"),
              StoreCall.docSet "users" uid
                [("name", JsVal.str "A"), ("email", JsVal.str "a@x.com"),
                  ("role", JsVal.str "member"), ("createdAt", JsVal.num emptyStore.clock)]] :=
  ⟨by decide,
    registerUser_success_effect emptyStore "a@x.com" "secret1" "A" (JsVal.str "member")
      rfl rfl (by decide)⟩

/-- C18, counterexample: registering `a@x.com` with password `secret1` makes
two records, an account and a profile document; the password reaches
`createUser` as supplied, and the properties of the profile document are name,
email, role and createdAt, with no password verifier among them. -/
theorem registerUser_writes_no_verifier :
    (registerUser emptyStore (JsVal.str "a@x.com") (JsVal.str "secret1") (JsVal.str "A")
        (JsVal.str "member")).2.1.accounts.length = 1 ∧
      (registerUser emptyStore (JsVal.str "a@x.com") (JsVal.str "secret1") (JsVal.str "A")
        (JsVal.str "member")).2.1.users.map (fun d => d.2.map Prod.fst)
        = [["name", "email", "role", "createdAt"]] ∧
      (registerUser emptyStore (JsVal.str "a@x.com") (JsVal.str "secret1") (JsVal.str "A")
        (JsVal.str "member")).2.2.head?
        = some (StoreCall.createUser (JsVal.str "a@x.com") (JsVal.str "secret1")
            (JsVal.str "A")) := by
  decide

/-! ## The placeholder store -/

/-- C19 (as amended): with the placeholder store of `firebase.js`, both contact
handlers answer every complete submission with 200 and the fabricated id
`simulated-doc-id`, and nothing is written. `registerUser` does not use the
placeholder: when the authentication service cannot be reached it fails with
the error of the service and leaves the store unchanged. -/
theorem placeholder_add_simulates_success (store : ContactStore) (now : Nat) (body : JsObject)
    (h1 : (body.get "firstName").truthy = true) (h2 : (body.get "lastName").truthy = true)
    (h3 : (body.get "email").truthy = true) (h4 : (body.get "subject").truthy = true)
    (h5 : (body.get "message").truthy = true) :
    geminiRoutesPost dbAdd store now body
        = ⟨⟨200, "Message sent successfully! We will get back to you soon.",
            some "simulated-doc-id", none⟩, store, [contactDocument body now]⟩ ∧
      submitContactForm dbAdd store now body
        = ⟨⟨200, "Message sent successfully! We will get back to you soon.",
            some "simulated-doc-id", none⟩, store, [contactDocument body now]⟩ ∧
      ∀ (st : IdentityStore) (error : JsError) (email password name role : JsVal),
        st.authOutage = some error →
          (registerUser st email password name role).1 = .error ⟨error.message⟩ ∧
            (registerUser st email password name role).2.1 = st := by
  have hall := contact_all_fields body h1 h2 h3 h4 h5
  refine ⟨?_, ?_, ?_⟩
  · unfold geminiRoutesPost
    rw [hall]
    simp [dbAdd]
  · unfold submitContactForm
    rw [hall]
    simp [dbAdd]
  · intro st error email password name role hout
    rw [registerUser_auth_outage st error email password name role hout]
    exact ⟨rfl, rfl⟩

/-- C19, witness: a complete submission against the placeholder. -/
theorem placeholder_add_simulates_success_witness :
    (geminiRoutesPost dbAdd emptyContactStore 100 contactBody).response.id
        = some "simulated-doc-id" ∧
      (geminiRoutesPost dbAdd emptyContactStore 100 contactBody
          = ⟨⟨200, "Message sent successfully! We will get back to you soon.",
              some "simulated-doc-id", none⟩, emptyContactStore,
              [contactDocument contactBody 100]⟩ ∧
        submitContactForm dbAdd emptyContactStore 100 contactBody
          = ⟨⟨200, "Message sent successfully! We will get back to you soon.",
              some "simulated-doc-id", none⟩, emptyContactStore,
              [contactDocument contactBody 100]⟩ ∧
        ∀ (st : IdentityStore) (error : JsError) (email password name role : JsVal),
          st.authOutage = some error →
            (registerUser st email password name role).1 = .error ⟨error.message⟩ ∧
              (registerUser st email password name role).2.1 = st) :=
  ⟨by decide,
    placeholder_add_simulates_success emptyContactStore 100 contactBody
      (by decide) (by decide) (by decide) (by decide) (by decide)⟩

/-- C19, counterexample: the placeholder store cannot be reached and writes
nothing, yet both contact handlers answer a complete submission with the
success status 200 and the fabricated id `simulated-doc-id`. -/
theorem contact_handlers_fabricate_id :
    (geminiRoutesPost dbAdd emptyContactStore 100 contactBody).response.status = 200 ∧
      (geminiRoutesPost dbAdd emptyContactStore 100 contactBody).response.id
        = some "simulated-doc-id" ∧
      (geminiRoutesPost dbAdd emptyContactStore 100 contactBody).store.submissions = [] ∧
      (submitContactForm dbAdd emptyContactStore 100 contactBody).response.status = 200 ∧
      (submitContactForm dbAdd emptyContactStore 100 contactBody).response.id
        = some "simulated-doc-id" ∧
      (submitContactForm dbAdd emptyContactStore 100 contactBody).store.submissions = [] := by
  decide

/-! ## Status codes -/

/-- C20 (as amended): every response of login has status 200, 400, 401, 404 or
500, and every response of signup has status 201, 400, 409 or 500, for every
request, db handle and state of the Identity Store. -/
theorem handler_status_codes (svc : AuthService) (db : Db) (st : IdentityStore) (now : Nat)
    (body : JsObject) :
    (login svc db st now body).response.status ∈ [200, 400, 401, 404, 500] ∧
      (signup svc st now body).response.status ∈ [201, 400, 409, 500] := by
  constructor
  · rcases login_response_cases svc db st now body with h | ⟨e, h⟩ | h | ⟨uid, role, h⟩
    · simp [h]
    · rw [h]
      rcases loginCatch_status e with hs | hs <;> simp [hs]
    · simp [h]
    · simp [h]
  · rcases signup_response_cases svc st now body with h | ⟨e, h⟩ | ⟨uid, role, h⟩
    · simp [h]
    · rw [h]
      rcases signupCatch_status e with hs | hs <;> simp [hs]
    · simp [h]

/-- C20, counterexample: the account of `a@x.com` exists but its profile
document does not; login answers 404, with the placeholder `db` of
`firebase.js` as with a working Firestore. -/
theorem login_answers_404 :
    (login sampleService db memberStore 100 wrongPasswordBody).response.status = 404 ∧
      (login sampleService (firestore noProfileStore) noProfileStore 100
        wrongPasswordBody).response.status = 404 := by
  decide

/-! ## Validation of request bodies -/

/-- C21 (as amended): the guard of signup tests truthiness only. Signup
responds 400 exactly when one of email, password, name, role is falsy, and then
makes no call; when all four are truthy, strings or not (a non-zero number, an
array, an object), `registerUser` is called with them as they are. -/
theorem signup_guard_tests_truthiness (svc : AuthService) (st : IdentityStore) (now : Nat)
    (body : JsObject) :
    ((signup svc st now body).response.status = 400 ↔
        ((body.get "email").truthy = false ∨ (body.get "password").truthy = false ∨
          (body.get "name").truthy = false ∨ (body.get "role").truthy = false)) ∧
      ((signup svc st now body).response.status = 400 → (signup svc st now body).calls = []) ∧
      ((body.get "email").truthy = true ∧ (body.get "password").truthy = true ∧
          (body.get "name").truthy = true ∧ (body.get "role").truthy = true →
        (signup svc st now body).calls.head?
          = some (StoreCall.createUser (body.get "email") (body.get "password")
              (body.get "name"))) := by
  refine ⟨⟨signup_status_400 svc st now body, ?_⟩, ?_, ?_⟩
  · intro h
    rw [signup_missing_field svc st now body h]
  · intro h
    rw [signup_missing_field svc st now body (signup_status_400 svc st now body h)]
  · rintro ⟨he, hp, hn, hr⟩
    rw [signup_all_fields svc st now body he hp hn hr]
    have hhead := registerUser_calls_head st (body.get "email") (body.get "password")
      (body.get "name") (body.get "role")
    rcases hreg : registerUser st (body.get "email") (body.get "password") (body.get "name")
        (body.get "role") with ⟨res, st1, calls⟩
    rw [hreg] at hhead
    cases res <;> exact hhead

/-- C21, counterexample: a signup request whose password is the number 123456
is not answered 400, and `createUser` is called with the number. -/
theorem signup_accepts_numeric_password :
    (numericPasswordBody.get "password").isString = false ∧
      (signup sampleService emptyStore 100 numericPasswordBody).response.status = 500 ∧
      (signup sampleService emptyStore 100 numericPasswordBody).calls
        = [StoreCall.createUser (JsVal.str "n@x.com") (JsVal.num 123456) (JsVal.str "N")] := by
  decide

/-! ## Contact submissions -/

/-- C22: both contact handlers validate before saving. For every request body
and every store, the response is 400 "All fields are required." exactly when
one of firstName, lastName, email, subject, message is falsy (missing or empty,
for fields that are strings or absent), and then `add` is not called and the
store is unchanged; otherwise `add` is called once, on `contactSubmissions`,
with the five fields as submitted plus the timestamp, and when it resolves the
response is 200 with the id it returned. -/
theorem contact_validates_before_saving (add : AddHandle) (store : ContactStore) (now : Nat)
    (body : JsObject) :
    ((geminiRoutesPost add store now body).response.status = 400 ↔
        contactFieldMissing body = true) ∧
      ((submitContactForm add store now body).response.status = 400 ↔
        contactFieldMissing body = true) ∧
      (contactFieldMissing body = true →
        geminiRoutesPost add store now body
            = ⟨⟨400, "All fields are required.", none, none⟩, store, []⟩ ∧
          submitContactForm add store now body
            = ⟨⟨400, "All fields are required.", none, none⟩, store, []⟩) ∧
      (contactFieldMissing body = false →
        (geminiRoutesPost add store now body).added
            = [[("firstName", body.get "firstName"), ("lastName", body.get "lastName"),
                ("email", body.get "email"), ("subject", body.get "subject"),
                ("message", body.get "message"), ("timestamp", JsVal.num now)]] ∧
          (submitContactForm add store now body).added
            = (geminiRoutesPost add store now body).added ∧
          ∀ docId store1,
            add store "contactSubmissions" (contactDocument body now) = (.ok docId, store1) →
              geminiRoutesPost add store now body
                  = ⟨⟨200, "Message sent successfully! We will get back to you soon.",
                      some docId, none⟩, store1, [contactDocument body now]⟩ ∧
                submitContactForm add store now body
                  = ⟨⟨200, "Message sent successfully! We will get back to you soon.",
                      some docId, none⟩, store1, [contactDocument body now]⟩) ∧
      ((body.get "firstName").isStringOrAbsent = true ∧
          (body.get "lastName").isStringOrAbsent = true ∧
          (body.get "email").isStringOrAbsent = true ∧
          (body.get "subject").isStringOrAbsent = true ∧
          (body.get "message").isStringOrAbsent = true →
        (contactFieldMissing body = true ↔
          ((body.get "firstName" = JsVal.undefined ∨ body.get "firstName" = JsVal.str "") ∨
            (body.get "lastName" = JsVal.undefined ∨ body.get "lastName" = JsVal.str "") ∨
            (body.get "email" = JsVal.undefined ∨ body.get "email" = JsVal.str "") ∨
            (body.get "subject" = JsVal.undefined ∨ body.get "subject" = JsVal.str "") ∨
            (body.get "message" = JsVal.undefined ∨ body.get "message" = JsVal.str "")))) := by
  have hwords : (body.get "firstName").isStringOrAbsent = true ∧
      (body.get "lastName").isStringOrAbsent = true ∧
      (body.get "email").isStringOrAbsent = true ∧
      (body.get "subject").isStringOrAbsent = true ∧
      (body.get "message").isStringOrAbsent = true →
      (contactFieldMissing body = true ↔
        ((body.get "firstName" = JsVal.undefined ∨ body.get "firstName" = JsVal.str "") ∨
          (body.get "lastName" = JsVal.undefined ∨ body.get "lastName" = JsVal.str "") ∨
          (body.get "email" = JsVal.undefined ∨ body.get "email" = JsVal.str "") ∨
          (body.get "subject" = JsVal.undefined ∨ body.get "subject" = JsVal.str "") ∨
          (body.get "message" = JsVal.undefined ∨ body.get "message" = JsVal.str ""))) :=
    fun h => contactFieldMissing_iff body h.1 h.2.1 h.2.2.1 h.2.2.2.1 h.2.2.2.2
  refine ⟨?_, ?_, ?_, ?_, hwords⟩
  all_goals
    cases hm : contactFieldMissing body with
    | true =>
      simp [geminiRoutesPost_missing add store now body hm,
        submitContactForm_missing add store now body hm]
    | false =>
      simp only [geminiRoutesPost_complete add store now body hm,
        submitContactForm_complete add store now body hm]
      rcases hadd : add store "contactSubmissions" (contactDocument body now) with ⟨res, store1⟩
      cases res with
      | error e => simp [contactDocument]
      | ok docId => simp [contactDocument]

/-- Example for C22 on a working store: a complete submission adds exactly one
document, under the id the response carries; an incomplete one adds none. -/
theorem contact_submission_stored :
    (geminiRoutesPost firestoreAdd emptyContactStore 100 contactBody).response
        = ⟨200, "Message sent successfully! We will get back to you soon.", some "d", none⟩ ∧
      (geminiRoutesPost firestoreAdd emptyContactStore 100 contactBody).store.submissions
        = [("d", contactDocument contactBody 100)] ∧
      (geminiRoutesPost firestoreAdd emptyContactStore 100 [("firstName", JsVal.str "Ada")]).store
        = emptyContactStore := by
  decide

/-! ## Password hashing -/

/-- The positive half of password hashing: `comparePasswords(p, hashPassword(p))`
is true for every password `p`, and `hashPassword` uses the salt its call is
given and the constant cost 10. -/
theorem comparePasswords_hashPassword (bcrypt : Bcrypt) (random p : String) :
    comparePasswords bcrypt p (hashPassword bcrypt random p) = true ∧
      (hashPassword bcrypt random p).cost = 10 ∧
      (hashPassword bcrypt random p).salt = random := by
  refine ⟨?_, rfl, rfl⟩
  simp [comparePasswords, bcryptCompare, hashPassword, bcryptHash, genSalt]

/-- C23, failing input: a password of 72 letters and the same password with
one more letter are different, bcrypt reads the same 72 bytes from both, and
`comparePasswords` resolves to true for the longer one against the hash of the
shorter. -/
theorem compare_accepts_longer_password :
    longPassword ++ "b" ≠ longPassword ∧
      bcryptKey (longPassword ++ "b") = bcryptKey longPassword ∧
      comparePasswords sampleBcrypt (longPassword ++ "b")
        (hashPassword sampleBcrypt "salt" longPassword) = true := by
  decide

/-! ## Hero showcase -/

/-- C25: after the initial display and `k` completed updates the index
`currentShowcaseIndex` is within `0..length-1`, the displayed tagline is
`showcaseItems[k mod length]`, and the display repeats with period `length`. -/
theorem showcase_rotation (k : Nat) :
    (showcaseAfter k).currentShowcaseIndex < showcaseItems.length ∧
      (showcaseAfter k).currentShowcaseIndex = (k + 1) % showcaseItems.length ∧
      showcaseItems.get? (k % showcaseItems.length) = some (showcaseAfter k).textContent ∧
      (showcaseAfter (k + showcaseItems.length)).textContent
        = (showcaseAfter k).textContent := by
  have hk := showcaseAfter_state k
  have hk6 := showcaseAfter_state (k + 6)
  rw [showcaseItems_length]
  refine ⟨?_, hk.1, ?_, ?_⟩
  · rw [hk.1]
    exact Nat.mod_lt _ (by decide)
  · rw [hk.2]
    exact showcaseItems_get (k % 6) (Nat.mod_lt _ (by decide))
  · rw [hk.2, hk6.2, Nat.add_mod_right]

/-! ## Login on the placeholder store and the password -/

/-- C26: with the placeholder `db` of `firebase.js`, login never responds 200
and never issues a token; whenever the lookup of the account by email is made
and succeeds, the response is 404 "User profile not found in database." -/
theorem login_on_placeholder (svc : AuthService) (st : IdentityStore) (now : Nat)
    (body : JsObject) :
    (login svc db st now body).response.status ∈ [400, 401, 404, 500] ∧
      (login svc db st now body).response.token = none ∧
      ∀ userRecord, (body.get "email").truthy = true → (body.get "password").truthy = true →
        getUserByEmail st (body.get "email") = .ok userRecord →
        (login svc db st now body).response
          = ⟨404, "User profile not found in database.", none, none, none, none⟩ := by
  by_cases he : (body.get "email").truthy = true
  · by_cases hp : (body.get "password").truthy = true
    · cases hu : getUserByEmail st (body.get "email") with
      | error e =>
        rw [login_lookup_failed svc db st now body e he hp hu]
        refine ⟨?_, loginCatch_token e, fun _ _ _ h => by cases h⟩
        rcases loginCatch_status e with h1 | h1 <;> simp [h1]
      | ok userRecord =>
        rw [login_placeholder_found svc st now body userRecord he hp hu]
        simp
    · rw [login_missing_field svc db st now body (Or.inr (by simpa using hp))]
      refine ⟨by simp, rfl, fun _ _ h => absurd h hp⟩
  · rw [login_missing_field svc db st now body (Or.inl (by simpa using he))]
    refine ⟨by simp, rfl, fun _ h => absurd h he⟩

/-- C27: the response of login does not depend on the password value. For
every db handle and store, two requests with the same email and any two
non-empty passwords get the same response (status, message, uid, role and
token) and make the same calls. -/
theorem login_ignores_password (svc : AuthService) (db : Db) (st : IdentityStore) (now : Nat)
    (email p1 p2 : JsVal) (h1 : p1.truthy = true) (h2 : p2.truthy = true) :
    (login svc db st now [("email", email), ("password", p1)]).response
        = (login svc db st now [("email", email), ("password", p2)]).response ∧
      (login svc db st now [("email", email), ("password", p1)]).calls
        = (login svc db st now [("email", email), ("password", p2)]).calls := by
  have hget : ∀ p : JsVal,
      JsObject.get [("email", email), ("password", p)] "email" = email ∧
        JsObject.get [("email", email), ("password", p)] "password" = p := by
    intro p
    simp [JsObject.get, List.lookup]
  have heq := login_same_email svc db st now [("email", email), ("password", p1)]
    [("email", email), ("password", p2)] (by rw [(hget p1).1, (hget p2).1])
    (by rw [(hget p1).2]; exact h1) (by rw [(hget p2).2]; exact h2)
  rw [heq]
  exact ⟨rfl, rfl⟩

/-- C27, witness: the member logging in with the right and with a wrong
password. -/
theorem login_ignores_password_witness :
    (login sampleService (firestore memberStore) memberStore 100
        [("email", JsVal.str "a@x.com"), ("password", JsVal.str "secret1")]).response
        = (login sampleService (firestore memberStore) memberStore 100
          [("email", JsVal.str "a@x.com"), ("password", JsVal.str "wrong")]).response ∧
      (login sampleService (firestore memberStore) memberStore 100
        [("email", JsVal.str "a@x.com"), ("password", JsVal.str "secret1")]).calls
        = (login sampleService (firestore memberStore) memberStore 100
          [("email", JsVal.str "a@x.com"), ("password", JsVal.str "wrong")]).calls :=
  login_ignores_password sampleService (firestore memberStore) memberStore 100
    (JsVal.str "a@x.com") (JsVal.str "secret1") (JsVal.str "wrong") (by decide) (by decide)

/-! ## Order of the writes of `registerUser` -/

/-- C28: `registerUser` writes the profile document only after account creation
has succeeded, keyed by the uid the store returned and holding the supplied
name, email and role; when account creation fails, no profile document is
written and the error thrown has the message of the store's error. -/
theorem registerUser_profile_after_account (st : IdentityStore)
    (email password name role : JsVal) :
    (∀ userRecord st1, createUser st email password name = (.ok userRecord, st1) →
        (registerUser st email password name role).2.2
            = [StoreCall.createUser email password name,
                StoreCall.docSet "users" userRecord.uid
                  [("name", name), ("email", email), ("role", role),
                    ("createdAt", JsVal.num st1.clock)]] ∧
          (st1.firestoreOutage = none →
            (registerUser st email password name role).2.1.users.lookup userRecord.uid
              = some [("name", name), ("email", email), ("role", role),
                  ("createdAt", JsVal.num st1.clock)])) ∧
      (∀ error st1, createUser st email password name = (.error error, st1) →
        registerUser st email password name role
            = (.error ⟨error.message⟩, st1, [StoreCall.createUser email password name]) ∧
          (registerUser st email password name role).2.1.users = st.users) := by
  constructor
  · intro userRecord st1 hc
    have hcalls : (registerUser st email password name role).2.2
        = [StoreCall.createUser email password name,
            StoreCall.docSet "users" userRecord.uid
              [("name", name), ("email", email), ("role", role),
                ("createdAt", JsVal.num st1.clock)]] := by
      unfold registerUser
      rw [hc]
      simp only
      rcases hs : usersDocSet st1 userRecord.uid _ with ⟨res2, st2⟩
      cases res2 <;> rfl
    refine ⟨hcalls, ?_⟩
    intro hfs
    have hset := usersDocSet_lookup st1 userRecord.uid
      [("name", name), ("email", email), ("role", role), ("createdAt", JsVal.num st1.clock)] hfs
    unfold registerUser
    rw [hc]
    simp only
    rcases hs : usersDocSet st1 userRecord.uid _ with ⟨res2, st2⟩
    rw [hs] at hset
    cases res2 <;> exact hset
  · intro error st1 hc
    have hreg : registerUser st email password name role
        = (.error ⟨error.message⟩, st1, [StoreCall.createUser email password name]) := by
      unfold registerUser
      rw [hc]
    refine ⟨hreg, ?_⟩
    rw [hreg]
    have hu := createUser_users st email password name
    rw [hc] at hu
    exact hu

/-! ## The two contact handlers -/

/-- C29: the route handler of `geminiRoutes.js` and `submitContactForm` agree on
the status: for every request body and every store they respond with the same
status, pass the same document to the store and leave the same store, and
their responses are equal whenever the status is 200 or 400. -/
theorem contact_handlers_agree (add : AddHandle) (store : ContactStore) (now : Nat)
    (body : JsObject) :
    (geminiRoutesPost add store now body).response.status
        = (submitContactForm add store now body).response.status ∧
      (geminiRoutesPost add store now body).added
        = (submitContactForm add store now body).added ∧
      (geminiRoutesPost add store now body).store
        = (submitContactForm add store now body).store ∧
      ((geminiRoutesPost add store now body).response.status = 200 ∨
          (geminiRoutesPost add store now body).response.status = 400 →
        (geminiRoutesPost add store now body).response
          = (submitContactForm add store now body).response) := by
  cases hm : contactFieldMissing body with
  | true =>
    rw [geminiRoutesPost_missing add store now body hm,
      submitContactForm_missing add store now body hm]
    simp
  | false =>
    rw [geminiRoutesPost_complete add store now body hm,
      submitContactForm_complete add store now body hm]
    rcases hadd : add store "contactSubmissions" (contactDocument body now) with ⟨res, store1⟩
    cases res with
    | error e => simp
    | ok docId => simp

/-! ## Form handlers -/

/-- C24: for a contact, login or signup submission that passes the client-side
validation, whatever the outcome of the fetch (answered ok, answered with an
error status, rejected), once the handler completes the text of the submit
button is the text it had before, the button is enabled, the body has no
`loading` class, and one request was sent. -/
theorem submit_restores_button (page : Page) (fetch : FetchRequest → FetchOutcome)
    (data : JsObject) (formData : LoginFields) (fields : SignupFields)
    (hc : contactFormInvalid data = false) (hl : loginFormInvalid formData = false)
    (hs : signupFormValid fields = true) :
    ((contactFormSubmit page data fetch).1.submitText = page.submitText ∧
        (contactFormSubmit page data fetch).1.submitDisabled = false ∧
        "loading" ∉ (contactFormSubmit page data fetch).1.bodyClasses ∧
        (contactFormSubmit page data fetch).2.length = 1) ∧
      ((loginFormSubmit page formData fetch).1.submitText = page.submitText ∧
        (loginFormSubmit page formData fetch).1.submitDisabled = false ∧
        "loading" ∉ (loginFormSubmit page formData fetch).1.bodyClasses ∧
        (loginFormSubmit page formData fetch).2.length = 1) ∧
      ((signupFormSubmit page fields fetch).1.submitText = page.submitText ∧
        (signupFormSubmit page fields fetch).1.submitDisabled = false ∧
        "loading" ∉ (signupFormSubmit page fields fetch).1.bodyClasses ∧
        (signupFormSubmit page fields fetch).2.length = 1) := by
  obtain ⟨hs1, hs2, hs3⟩ := signupFormValid_checks fields hs
  refine ⟨?_, ?_, ?_⟩
  · simp only [contactFormSubmit, hc, Bool.false_eq_true, if_false]
    exact ⟨rfl, rfl, not_mem_classRemove "loading" _, rfl⟩
  · simp only [loginFormSubmit, hl, Bool.false_eq_true, if_false]
    exact ⟨rfl, rfl, not_mem_classRemove "loading" _, rfl⟩
  · simp only [signupFormSubmit, hs1, hs2, hs3, Bool.false_eq_true, if_false]
    exact ⟨rfl, rfl, not_mem_classRemove "loading" _, rfl⟩

/-- C24, witness: the three forms filled in, against a server that answers
with an error status. -/
theorem submit_restores_button_witness :
    (contactFormSubmit idlePage contactBody failingServer).1.errorMessage
        = some (JsVal.str "Nope") ∧
      (((contactFormSubmit idlePage contactBody failingServer).1.submitText
            = idlePage.submitText ∧
          (contactFormSubmit idlePage contactBody failingServer).1.submitDisabled = false ∧
          "loading" ∉ (contactFormSubmit idlePage contactBody failingServer).1.bodyClasses ∧
          (contactFormSubmit idlePage contactBody failingServer).2.length = 1) ∧
        ((loginFormSubmit idlePage loginFields failingServer).1.submitText
            = idlePage.submitText ∧
          (loginFormSubmit idlePage loginFields failingServer).1.submitDisabled = false ∧
          "loading" ∉ (loginFormSubmit idlePage loginFields failingServer).1.bodyClasses ∧
          (loginFormSubmit idlePage loginFields failingServer).2.length = 1) ∧
        ((signupFormSubmit idlePage signupFields failingServer).1.submitText
            = idlePage.submitText ∧
          (signupFormSubmit idlePage signupFields failingServer).1.submitDisabled = false ∧
          "loading" ∉ (signupFormSubmit idlePage signupFields failingServer).1.bodyClasses ∧
          (signupFormSubmit idlePage signupFields failingServer).2.length = 1)) :=
  ⟨by decide,
    submit_restores_button idlePage failingServer contactBody loginFields signupFields
      (by decide) (by decide) (by decide)⟩

/-- C30: the signup form sends a request to `/api/auth/signup` if and only if
the password equals the confirmation, the password has at least 6 characters
and name, email, password and role are non-empty; the request carries those
four fields. In every other case it shows one of its three error messages and
sends nothing, and a mismatch is reported whatever the length. -/
theorem signup_form_sends_iff_valid (page : Page) (fields : SignupFields)
    (fetch : FetchRequest → FetchOutcome) :
    ((signupFormSubmit page fields fetch).2
        = if signupFormValid fields = true then
            [⟨"/api/auth/signup", "POST",
              [("name", JsVal.str fields.name), ("email", JsVal.str fields.email),
                ("password", JsVal.str fields.password), ("role", JsVal.str fields.role)]⟩]
          else []) ∧
      (signupFormValid fields = false →
        (signupFormSubmit page fields fetch).1.errorMessage ∈
          [some (JsVal.str "Passwords do not match!"),
            some (JsVal.str "Password must be at least 6 characters long."),
            some (JsVal.str "Please fill in all fields.")]) ∧
      (fields.password ≠ fields.confirmPassword →
        (signupFormSubmit page fields fetch).1.errorMessage
            = some (JsVal.str "Passwords do not match!") ∧
          (signupFormSubmit page fields fetch).2 = []) := by
  cases h1 : (fields.password != fields.confirmPassword) with
  | true =>
    have hv := signupFormValid_false_of_mismatch fields h1
    rw [signupFormSubmit_mismatch page fields fetch h1, hv]
    simp [showError]
  | false =>
    have hpw : fields.password = fields.confirmPassword := by
      simpa [bne] using h1
    by_cases h2 : jsLength fields.password < 6
    · have hv := signupFormValid_false_of_short fields h2
      rw [signupFormSubmit_short page fields fetch h1 h2, hv]
      simp [showError, hpw]
    · cases h3 : (fields.name == "" || fields.email == "" || fields.password == ""
          || fields.role == "") with
      | true =>
        have hv := signupFormValid_false_of_empty fields h3
        rw [signupFormSubmit_empty page fields fetch h1 h2 h3, hv]
        simp [showError, hpw]
      | false =>
        have hv := signupFormValid_true fields h1 h2 h3
        rw [signupFormSubmit_sent page fields fetch h1 h2 h3, hv]
        simp [hpw]

/-- Example for C30, the precedence: the passwords `abc` and `abd` differ and
are shorter than 6; the message shown is the mismatch, and nothing is sent;
a valid form sends one request. -/
theorem signup_form_mismatch_first :
    (signupFormSubmit idlePage mismatchFields acceptingServer).1.errorMessage
        = some (JsVal.str "Passwords do not match!") ∧
      (signupFormSubmit idlePage mismatchFields acceptingServer).2 = [] ∧
      (signupFormSubmit idlePage signupFields acceptingServer).2.map (fun r => r.url)
        = ["/api/auth/signup"] := by
  decide

end Rotaract
